import Mathlib

/-!
# Verification of the e2e key-value store

Shallow embedding of the key-value store server:
* `protocol.py` — `parse_command`, `format_response`;
* `storage.py` — `Storage` with `get` / `set` / `delete`;
* `server.py` — `Server.execute_command` and the per-read request cycle
  (`parse_command` / `execute_command` / `format_response`).

Python `None` is modelled by `Option.none`: keys and values travelling
through the protocol and the store are `Option String` (a missing token
parses to `None` and is passed through unchanged).  The backing `dict` is
modelled extensionally as its lookup function — the code never iterates
over the dictionary, so only `get` / membership / assignment / `del` are
observable, and all of them are total in Python for `None` keys (`None`
is hashable).
-/

/-- The code points of the characters `str.strip()` / `str.split()` treat as
whitespace: every code point `c` with `chr(c).isspace()` in CPython — the
ASCII whitespace and separators, NEL, NBSP, and the Unicode space
separators. -/
def pyWsCodes : List Nat :=
  [9, 10, 11, 12, 13, 28, 29, 30, 31, 32, 133, 160, 5760,
   8192, 8193, 8194, 8195, 8196, 8197, 8198, 8199, 8200, 8201, 8202,
   8232, 8233, 8239, 8287, 12288]

/-- Whether `str.strip()` / `str.split()` treat a character as whitespace. -/
def isPyWs (c : Char) : Bool :=
  pyWsCodes.contains c.toNat

/-- `str.strip()` on the character list: drop leading and trailing whitespace. -/
def stripChars (l : List Char) : List Char :=
  ((l.dropWhile isPyWs).reverse.dropWhile isPyWs).reverse

/-- Python `s.strip()`. -/
def py_strip (s : String) : String :=
  String.mk (stripChars s.data)

/-- Worker for `str.split()` with no separator: split on runs of whitespace,
dropping empty tokens.  `acc` is the current token, reversed. -/
def splitWs : List Char → List Char → List String
  | [], acc => if acc.isEmpty then [] else [String.mk acc.reverse]
  | c :: cs, acc =>
    if isPyWs c then
      if acc.isEmpty then splitWs cs []
      else String.mk acc.reverse :: splitWs cs []
    else splitWs cs (c :: acc)

/-- Python `s.split()` (no separator argument). -/
def pySplit (s : String) : List String :=
  splitWs s.data []

/-- The uppercase mapping of CPython `str.upper()` (the Unicode full case
mapping, enumerated from `chr(i).upper()` for every code point and laid out
as a binary search over the code point): maps a code point to the code
points of its uppercase form (one-to-many for special casings such as
U+00DF to `SS`); code points with no entry map to themselves. -/
def py_upperNat (n : Nat) : List Nat :=
  if n < 8066 then
  if n < 1167 then
    if n < 541 then
      if n < 329 then
        if n < 243 then
          if n < 120 then
            if n < 108 then
              if n < 102 then
                if n < 99 then
                  if n < 98 then
                    if n = 97 then [65] else [n]
                    else
                    if n = 98 then [66] else [n]
                  else
                  if n < 100 then
                    if n = 99 then [67] else [n]
                    else
                    if n < 101 then
                      if n = 100 then [68] else [n]
                      else
                      if n = 101 then [69] else [n]
                else
                if n < 105 then
                  if n < 103 then
                    if n = 102 then [70] else [n]
                    else
                    if n < 104 then
                      if n = 103 then [71] else [n]
                      else
                      if n = 104 then [72] else [n]
                  else
                  if n < 106 then
                    if n = 105 then [73] else [n]
                    else
                    if n < 107 then
                      if n = 106 then [74] else [n]
                      else
                      if n = 107 then [75] else [n]
              else
              if n < 114 then
                if n < 111 then
                  if n < 109 then
                    if n = 108 then [76] else [n]
                    else
                    if n < 110 then
                      if n = 109 then [77] else [n]
                      else
                      if n = 110 then [78] else [n]
                  else
                  if n < 112 then
                    if n = 111 then [79] else [n]
                    else
                    if n < 113 then
                      if n = 112 then [80] else [n]
                      else
                      if n = 113 then [81] else [n]
                else
                if n < 117 then
                  if n < 115 then
                    if n = 114 then [82] else [n]
                    else
                    if n < 116 then
                      if n = 115 then [83] else [n]
                      else
                      if n = 116 then [84] else [n]
                  else
                  if n < 118 then
                    if n = 117 then [85] else [n]
                    else
                    if n < 119 then
                      if n = 118 then [86] else [n]
                      else
                      if n = 119 then [87] else [n]
            else
            if n < 231 then
              if n < 225 then
                if n < 181 then
                  if n < 121 then
                    if n = 120 then [88] else [n]
                    else
                    if n < 122 then
                      if n = 121 then [89] else [n]
                      else
                      if n = 122 then [90] else [n]
                  else
                  if n < 223 then
                    if n = 181 then [924] else [n]
                    else
                    if n < 224 then
                      if n = 223 then [83, 83] else [n]
                      else
                      if n = 224 then [192] else [n]
                else
                if n < 228 then
                  if n < 226 then
                    if n = 225 then [193] else [n]
                    else
                    if n < 227 then
                      if n = 226 then [194] else [n]
                      else
                      if n = 227 then [195] else [n]
                  else
                  if n < 229 then
                    if n = 228 then [196] else [n]
                    else
                    if n < 230 then
                      if n = 229 then [197] else [n]
                      else
                      if n = 230 then [198] else [n]
              else
              if n < 237 then
                if n < 234 then
                  if n < 232 then
                    if n = 231 then [199] else [n]
                    else
                    if n < 233 then
                      if n = 232 then [200] else [n]
                      else
                      if n = 233 then [201] else [n]
                  else
                  if n < 235 then
                    if n = 234 then [202] else [n]
                    else
                    if n < 236 then
                      if n = 235 then [203] else [n]
                      else
                      if n = 236 then [204] else [n]
                else
                if n < 240 then
                  if n < 238 then
                    if n = 237 then [205] else [n]
                    else
                    if n < 239 then
                      if n = 238 then [206] else [n]
                      else
                      if n = 239 then [207] else [n]
                  else
                  if n < 241 then
                    if n = 240 then [208] else [n]
                    else
                    if n < 242 then
                      if n = 241 then [209] else [n]
                      else
                      if n = 242 then [210] else [n]
          else
          if n < 281 then
            if n < 257 then
              if n < 250 then
                if n < 246 then
                  if n < 244 then
                    if n = 243 then [211] else [n]
                    else
                    if n < 245 then
                      if n = 244 then [212] else [n]
                      else
                      if n = 245 then [213] else [n]
                  else
                  if n < 248 then
                    if n = 246 then [214] else [n]
                    else
                    if n < 249 then
                      if n = 248 then [216] else [n]
                      else
                      if n = 249 then [217] else [n]
                else
                if n < 253 then
                  if n < 251 then
                    if n = 250 then [218] else [n]
                    else
                    if n < 252 then
                      if n = 251 then [219] else [n]
                      else
                      if n = 252 then [220] else [n]
                  else
                  if n < 254 then
                    if n = 253 then [221] else [n]
                    else
                    if n < 255 then
                      if n = 254 then [222] else [n]
                      else
                      if n = 255 then [376] else [n]
              else
              if n < 269 then
                if n < 263 then
                  if n < 259 then
                    if n = 257 then [256] else [n]
                    else
                    if n < 261 then
                      if n = 259 then [258] else [n]
                      else
                      if n = 261 then [260] else [n]
                  else
                  if n < 265 then
                    if n = 263 then [262] else [n]
                    else
                    if n < 267 then
                      if n = 265 then [264] else [n]
                      else
                      if n = 267 then [266] else [n]
                else
                if n < 275 then
                  if n < 271 then
                    if n = 269 then [268] else [n]
                    else
                    if n < 273 then
                      if n = 271 then [270] else [n]
                      else
                      if n = 273 then [272] else [n]
                  else
                  if n < 277 then
                    if n = 275 then [274] else [n]
                    else
                    if n < 279 then
                      if n = 277 then [276] else [n]
                      else
                      if n = 279 then [278] else [n]
            else
            if n < 305 then
              if n < 293 then
                if n < 287 then
                  if n < 283 then
                    if n = 281 then [280] else [n]
                    else
                    if n < 285 then
                      if n = 283 then [282] else [n]
                      else
                      if n = 285 then [284] else [n]
                  else
                  if n < 289 then
                    if n = 287 then [286] else [n]
                    else
                    if n < 291 then
                      if n = 289 then [288] else [n]
                      else
                      if n = 291 then [290] else [n]
                else
                if n < 299 then
                  if n < 295 then
                    if n = 293 then [292] else [n]
                    else
                    if n < 297 then
                      if n = 295 then [294] else [n]
                      else
                      if n = 297 then [296] else [n]
                  else
                  if n < 301 then
                    if n = 299 then [298] else [n]
                    else
                    if n < 303 then
                      if n = 301 then [300] else [n]
                      else
                      if n = 303 then [302] else [n]
              else
              if n < 318 then
                if n < 311 then
                  if n < 307 then
                    if n = 305 then [73] else [n]
                    else
                    if n < 309 then
                      if n = 307 then [306] else [n]
                      else
                      if n = 309 then [308] else [n]
                  else
                  if n < 314 then
                    if n = 311 then [310] else [n]
                    else
                    if n < 316 then
                      if n = 314 then [313] else [n]
                      else
                      if n = 316 then [315] else [n]
                else
                if n < 324 then
                  if n < 320 then
                    if n = 318 then [317] else [n]
                    else
                    if n < 322 then
                      if n = 320 then [319] else [n]
                      else
                      if n = 322 then [321] else [n]
                  else
                  if n < 326 then
                    if n = 324 then [323] else [n]
                    else
                    if n < 328 then
                      if n = 326 then [325] else [n]
                      else
                      if n = 328 then [327] else [n]
        else
        if n < 445 then
          if n < 375 then
            if n < 351 then
              if n < 339 then
                if n < 333 then
                  if n < 331 then
                    if n = 329 then [700, 78] else [n]
                    else
                    if n = 331 then [330] else [n]
                  else
                  if n < 335 then
                    if n = 333 then [332] else [n]
                    else
                    if n < 337 then
                      if n = 335 then [334] else [n]
                      else
                      if n = 337 then [336] else [n]
                else
                if n < 345 then
                  if n < 341 then
                    if n = 339 then [338] else [n]
                    else
                    if n < 343 then
                      if n = 341 then [340] else [n]
                      else
                      if n = 343 then [342] else [n]
                  else
                  if n < 347 then
                    if n = 345 then [344] else [n]
                    else
                    if n < 349 then
                      if n = 347 then [346] else [n]
                      else
                      if n = 349 then [348] else [n]
              else
              if n < 363 then
                if n < 357 then
                  if n < 353 then
                    if n = 351 then [350] else [n]
                    else
                    if n < 355 then
                      if n = 353 then [352] else [n]
                      else
                      if n = 355 then [354] else [n]
                  else
                  if n < 359 then
                    if n = 357 then [356] else [n]
                    else
                    if n < 361 then
                      if n = 359 then [358] else [n]
                      else
                      if n = 361 then [360] else [n]
                else
                if n < 369 then
                  if n < 365 then
                    if n = 363 then [362] else [n]
                    else
                    if n < 367 then
                      if n = 365 then [364] else [n]
                      else
                      if n = 367 then [366] else [n]
                  else
                  if n < 371 then
                    if n = 369 then [368] else [n]
                    else
                    if n < 373 then
                      if n = 371 then [370] else [n]
                      else
                      if n = 373 then [372] else [n]
            else
            if n < 409 then
              if n < 387 then
                if n < 382 then
                  if n < 378 then
                    if n = 375 then [374] else [n]
                    else
                    if n < 380 then
                      if n = 378 then [377] else [n]
                      else
                      if n = 380 then [379] else [n]
                  else
                  if n < 383 then
                    if n = 382 then [381] else [n]
                    else
                    if n < 384 then
                      if n = 383 then [83] else [n]
                      else
                      if n = 384 then [579] else [n]
                else
                if n < 396 then
                  if n < 389 then
                    if n = 387 then [386] else [n]
                    else
                    if n < 392 then
                      if n = 389 then [388] else [n]
                      else
                      if n = 392 then [391] else [n]
                  else
                  if n < 402 then
                    if n = 396 then [395] else [n]
                    else
                    if n < 405 then
                      if n = 402 then [401] else [n]
                      else
                      if n = 405 then [502] else [n]
              else
              if n < 424 then
                if n < 417 then
                  if n < 410 then
                    if n = 409 then [408] else [n]
                    else
                    if n < 414 then
                      if n = 410 then [573] else [n]
                      else
                      if n = 414 then [544] else [n]
                  else
                  if n < 419 then
                    if n = 417 then [416] else [n]
                    else
                    if n < 421 then
                      if n = 419 then [418] else [n]
                      else
                      if n = 421 then [420] else [n]
                else
                if n < 436 then
                  if n < 429 then
                    if n = 424 then [423] else [n]
                    else
                    if n < 432 then
                      if n = 429 then [428] else [n]
                      else
                      if n = 432 then [431] else [n]
                  else
                  if n < 438 then
                    if n = 436 then [435] else [n]
                    else
                    if n < 441 then
                      if n = 438 then [437] else [n]
                      else
                      if n = 441 then [440] else [n]
          else
          if n < 493 then
            if n < 470 then
              if n < 459 then
                if n < 454 then
                  if n < 447 then
                    if n = 445 then [444] else [n]
                    else
                    if n < 453 then
                      if n = 447 then [503] else [n]
                      else
                      if n = 453 then [452] else [n]
                  else
                  if n < 456 then
                    if n = 454 then [452] else [n]
                    else
                    if n < 457 then
                      if n = 456 then [455] else [n]
                      else
                      if n = 457 then [455] else [n]
                else
                if n < 464 then
                  if n < 460 then
                    if n = 459 then [458] else [n]
                    else
                    if n < 462 then
                      if n = 460 then [458] else [n]
                      else
                      if n = 462 then [461] else [n]
                  else
                  if n < 466 then
                    if n = 464 then [463] else [n]
                    else
                    if n < 468 then
                      if n = 466 then [465] else [n]
                      else
                      if n = 468 then [467] else [n]
              else
              if n < 481 then
                if n < 476 then
                  if n < 472 then
                    if n = 470 then [469] else [n]
                    else
                    if n < 474 then
                      if n = 472 then [471] else [n]
                      else
                      if n = 474 then [473] else [n]
                  else
                  if n < 477 then
                    if n = 476 then [475] else [n]
                    else
                    if n < 479 then
                      if n = 477 then [398] else [n]
                      else
                      if n = 479 then [478] else [n]
                else
                if n < 487 then
                  if n < 483 then
                    if n = 481 then [480] else [n]
                    else
                    if n < 485 then
                      if n = 483 then [482] else [n]
                      else
                      if n = 485 then [484] else [n]
                  else
                  if n < 489 then
                    if n = 487 then [486] else [n]
                    else
                    if n < 491 then
                      if n = 489 then [488] else [n]
                      else
                      if n = 491 then [490] else [n]
            else
            if n < 517 then
              if n < 505 then
                if n < 498 then
                  if n < 495 then
                    if n = 493 then [492] else [n]
                    else
                    if n < 496 then
                      if n = 495 then [494] else [n]
                      else
                      if n = 496 then [74, 780] else [n]
                  else
                  if n < 499 then
                    if n = 498 then [497] else [n]
                    else
                    if n < 501 then
                      if n = 499 then [497] else [n]
                      else
                      if n = 501 then [500] else [n]
                else
                if n < 511 then
                  if n < 507 then
                    if n = 505 then [504] else [n]
                    else
                    if n < 509 then
                      if n = 507 then [506] else [n]
                      else
                      if n = 509 then [508] else [n]
                  else
                  if n < 513 then
                    if n = 511 then [510] else [n]
                    else
                    if n < 515 then
                      if n = 513 then [512] else [n]
                      else
                      if n = 515 then [514] else [n]
              else
              if n < 529 then
                if n < 523 then
                  if n < 519 then
                    if n = 517 then [516] else [n]
                    else
                    if n < 521 then
                      if n = 519 then [518] else [n]
                      else
                      if n = 521 then [520] else [n]
                  else
                  if n < 525 then
                    if n = 523 then [522] else [n]
                    else
                    if n < 527 then
                      if n = 525 then [524] else [n]
                      else
                      if n = 527 then [526] else [n]
                else
                if n < 535 then
                  if n < 531 then
                    if n = 529 then [528] else [n]
                    else
                    if n < 533 then
                      if n = 531 then [530] else [n]
                      else
                      if n = 533 then [532] else [n]
                  else
                  if n < 537 then
                    if n = 535 then [534] else [n]
                    else
                    if n < 539 then
                      if n = 537 then [536] else [n]
                      else
                      if n = 539 then [538] else [n]
      else
      if n < 970 then
        if n < 643 then
          if n < 595 then
            if n < 572 then
              if n < 553 then
                if n < 547 then
                  if n < 543 then
                    if n = 541 then [540] else [n]
                    else
                    if n = 543 then [542] else [n]
                  else
                  if n < 549 then
                    if n = 547 then [546] else [n]
                    else
                    if n < 551 then
                      if n = 549 then [548] else [n]
                      else
                      if n = 551 then [550] else [n]
                else
                if n < 559 then
                  if n < 555 then
                    if n = 553 then [552] else [n]
                    else
                    if n < 557 then
                      if n = 555 then [554] else [n]
                      else
                      if n = 557 then [556] else [n]
                  else
                  if n < 561 then
                    if n = 559 then [558] else [n]
                    else
                    if n < 563 then
                      if n = 561 then [560] else [n]
                      else
                      if n = 563 then [562] else [n]
              else
              if n < 587 then
                if n < 578 then
                  if n < 575 then
                    if n = 572 then [571] else [n]
                    else
                    if n < 576 then
                      if n = 575 then [11390] else [n]
                      else
                      if n = 576 then [11391] else [n]
                  else
                  if n < 583 then
                    if n = 578 then [577] else [n]
                    else
                    if n < 585 then
                      if n = 583 then [582] else [n]
                      else
                      if n = 585 then [584] else [n]
                else
                if n < 592 then
                  if n < 589 then
                    if n = 587 then [586] else [n]
                    else
                    if n < 591 then
                      if n = 589 then [588] else [n]
                      else
                      if n = 591 then [590] else [n]
                  else
                  if n < 593 then
                    if n = 592 then [11375] else [n]
                    else
                    if n < 594 then
                      if n = 593 then [11373] else [n]
                      else
                      if n = 594 then [11376] else [n]
            else
            if n < 616 then
              if n < 604 then
                if n < 599 then
                  if n < 596 then
                    if n = 595 then [385] else [n]
                    else
                    if n < 598 then
                      if n = 596 then [390] else [n]
                      else
                      if n = 598 then [393] else [n]
                  else
                  if n < 601 then
                    if n = 599 then [394] else [n]
                    else
                    if n < 603 then
                      if n = 601 then [399] else [n]
                      else
                      if n = 603 then [400] else [n]
                else
                if n < 611 then
                  if n < 608 then
                    if n = 604 then [42923] else [n]
                    else
                    if n < 609 then
                      if n = 608 then [403] else [n]
                      else
                      if n = 609 then [42924] else [n]
                  else
                  if n < 613 then
                    if n = 611 then [404] else [n]
                    else
                    if n < 614 then
                      if n = 613 then [42893] else [n]
                      else
                      if n = 614 then [42922] else [n]
              else
              if n < 625 then
                if n < 619 then
                  if n < 617 then
                    if n = 616 then [407] else [n]
                    else
                    if n < 618 then
                      if n = 617 then [406] else [n]
                      else
                      if n = 618 then [42926] else [n]
                  else
                  if n < 620 then
                    if n = 619 then [11362] else [n]
                    else
                    if n < 623 then
                      if n = 620 then [42925] else [n]
                      else
                      if n = 623 then [412] else [n]
                else
                if n < 637 then
                  if n < 626 then
                    if n = 625 then [11374] else [n]
                    else
                    if n < 629 then
                      if n = 626 then [413] else [n]
                      else
                      if n = 629 then [415] else [n]
                  else
                  if n < 640 then
                    if n = 637 then [11364] else [n]
                    else
                    if n < 642 then
                      if n = 640 then [422] else [n]
                      else
                      if n = 642 then [42949] else [n]
          else
          if n < 946 then
            if n < 883 then
              if n < 652 then
                if n < 649 then
                  if n < 647 then
                    if n = 643 then [425] else [n]
                    else
                    if n < 648 then
                      if n = 647 then [42929] else [n]
                      else
                      if n = 648 then [430] else [n]
                  else
                  if n < 650 then
                    if n = 649 then [580] else [n]
                    else
                    if n < 651 then
                      if n = 650 then [433] else [n]
                      else
                      if n = 651 then [434] else [n]
                else
                if n < 670 then
                  if n < 658 then
                    if n = 652 then [581] else [n]
                    else
                    if n < 669 then
                      if n = 658 then [439] else [n]
                      else
                      if n = 669 then [42930] else [n]
                  else
                  if n < 837 then
                    if n = 670 then [42928] else [n]
                    else
                    if n < 881 then
                      if n = 837 then [921] else [n]
                      else
                      if n = 881 then [880] else [n]
              else
              if n < 940 then
                if n < 892 then
                  if n < 887 then
                    if n = 883 then [882] else [n]
                    else
                    if n < 891 then
                      if n = 887 then [886] else [n]
                      else
                      if n = 891 then [1021] else [n]
                  else
                  if n < 893 then
                    if n = 892 then [1022] else [n]
                    else
                    if n < 912 then
                      if n = 893 then [1023] else [n]
                      else
                      if n = 912 then [921, 776, 769] else [n]
                else
                if n < 943 then
                  if n < 941 then
                    if n = 940 then [902] else [n]
                    else
                    if n < 942 then
                      if n = 941 then [904] else [n]
                      else
                      if n = 942 then [905] else [n]
                  else
                  if n < 944 then
                    if n = 943 then [906] else [n]
                    else
                    if n < 945 then
                      if n = 944 then [933, 776, 769] else [n]
                      else
                      if n = 945 then [913] else [n]
            else
            if n < 958 then
              if n < 952 then
                if n < 949 then
                  if n < 947 then
                    if n = 946 then [914] else [n]
                    else
                    if n < 948 then
                      if n = 947 then [915] else [n]
                      else
                      if n = 948 then [916] else [n]
                  else
                  if n < 950 then
                    if n = 949 then [917] else [n]
                    else
                    if n < 951 then
                      if n = 950 then [918] else [n]
                      else
                      if n = 951 then [919] else [n]
                else
                if n < 955 then
                  if n < 953 then
                    if n = 952 then [920] else [n]
                    else
                    if n < 954 then
                      if n = 953 then [921] else [n]
                      else
                      if n = 954 then [922] else [n]
                  else
                  if n < 956 then
                    if n = 955 then [923] else [n]
                    else
                    if n < 957 then
                      if n = 956 then [924] else [n]
                      else
                      if n = 957 then [925] else [n]
              else
              if n < 964 then
                if n < 961 then
                  if n < 959 then
                    if n = 958 then [926] else [n]
                    else
                    if n < 960 then
                      if n = 959 then [927] else [n]
                      else
                      if n = 960 then [928] else [n]
                  else
                  if n < 962 then
                    if n = 961 then [929] else [n]
                    else
                    if n < 963 then
                      if n = 962 then [931] else [n]
                      else
                      if n = 963 then [931] else [n]
                else
                if n < 967 then
                  if n < 965 then
                    if n = 964 then [932] else [n]
                    else
                    if n < 966 then
                      if n = 965 then [933] else [n]
                      else
                      if n = 966 then [934] else [n]
                  else
                  if n < 968 then
                    if n = 967 then [935] else [n]
                    else
                    if n < 969 then
                      if n = 968 then [936] else [n]
                      else
                      if n = 969 then [937] else [n]
        else
        if n < 1091 then
          if n < 1010 then
            if n < 989 then
              if n < 977 then
                if n < 973 then
                  if n < 971 then
                    if n = 970 then [938] else [n]
                    else
                    if n < 972 then
                      if n = 971 then [939] else [n]
                      else
                      if n = 972 then [908] else [n]
                  else
                  if n < 974 then
                    if n = 973 then [910] else [n]
                    else
                    if n < 976 then
                      if n = 974 then [911] else [n]
                      else
                      if n = 976 then [914] else [n]
                else
                if n < 983 then
                  if n < 981 then
                    if n = 977 then [920] else [n]
                    else
                    if n < 982 then
                      if n = 981 then [934] else [n]
                      else
                      if n = 982 then [928] else [n]
                  else
                  if n < 985 then
                    if n = 983 then [975] else [n]
                    else
                    if n < 987 then
                      if n = 985 then [984] else [n]
                      else
                      if n = 987 then [986] else [n]
              else
              if n < 1001 then
                if n < 995 then
                  if n < 991 then
                    if n = 989 then [988] else [n]
                    else
                    if n < 993 then
                      if n = 991 then [990] else [n]
                      else
                      if n = 993 then [992] else [n]
                  else
                  if n < 997 then
                    if n = 995 then [994] else [n]
                    else
                    if n < 999 then
                      if n = 997 then [996] else [n]
                      else
                      if n = 999 then [998] else [n]
                else
                if n < 1007 then
                  if n < 1003 then
                    if n = 1001 then [1000] else [n]
                    else
                    if n < 1005 then
                      if n = 1003 then [1002] else [n]
                      else
                      if n = 1005 then [1004] else [n]
                  else
                  if n < 1008 then
                    if n = 1007 then [1006] else [n]
                    else
                    if n < 1009 then
                      if n = 1008 then [922] else [n]
                      else
                      if n = 1009 then [929] else [n]
            else
            if n < 1079 then
              if n < 1073 then
                if n < 1016 then
                  if n < 1011 then
                    if n = 1010 then [1017] else [n]
                    else
                    if n < 1013 then
                      if n = 1011 then [895] else [n]
                      else
                      if n = 1013 then [917] else [n]
                  else
                  if n < 1019 then
                    if n = 1016 then [1015] else [n]
                    else
                    if n < 1072 then
                      if n = 1019 then [1018] else [n]
                      else
                      if n = 1072 then [1040] else [n]
                else
                if n < 1076 then
                  if n < 1074 then
                    if n = 1073 then [1041] else [n]
                    else
                    if n < 1075 then
                      if n = 1074 then [1042] else [n]
                      else
                      if n = 1075 then [1043] else [n]
                  else
                  if n < 1077 then
                    if n = 1076 then [1044] else [n]
                    else
                    if n < 1078 then
                      if n = 1077 then [1045] else [n]
                      else
                      if n = 1078 then [1046] else [n]
              else
              if n < 1085 then
                if n < 1082 then
                  if n < 1080 then
                    if n = 1079 then [1047] else [n]
                    else
                    if n < 1081 then
                      if n = 1080 then [1048] else [n]
                      else
                      if n = 1081 then [1049] else [n]
                  else
                  if n < 1083 then
                    if n = 1082 then [1050] else [n]
                    else
                    if n < 1084 then
                      if n = 1083 then [1051] else [n]
                      else
                      if n = 1084 then [1052] else [n]
                else
                if n < 1088 then
                  if n < 1086 then
                    if n = 1085 then [1053] else [n]
                    else
                    if n < 1087 then
                      if n = 1086 then [1054] else [n]
                      else
                      if n = 1087 then [1055] else [n]
                  else
                  if n < 1089 then
                    if n = 1088 then [1056] else [n]
                    else
                    if n < 1090 then
                      if n = 1089 then [1057] else [n]
                      else
                      if n = 1090 then [1058] else [n]
          else
          if n < 1115 then
            if n < 1103 then
              if n < 1097 then
                if n < 1094 then
                  if n < 1092 then
                    if n = 1091 then [1059] else [n]
                    else
                    if n < 1093 then
                      if n = 1092 then [1060] else [n]
                      else
                      if n = 1093 then [1061] else [n]
                  else
                  if n < 1095 then
                    if n = 1094 then [1062] else [n]
                    else
                    if n < 1096 then
                      if n = 1095 then [1063] else [n]
                      else
                      if n = 1096 then [1064] else [n]
                else
                if n < 1100 then
                  if n < 1098 then
                    if n = 1097 then [1065] else [n]
                    else
                    if n < 1099 then
                      if n = 1098 then [1066] else [n]
                      else
                      if n = 1099 then [1067] else [n]
                  else
                  if n < 1101 then
                    if n = 1100 then [1068] else [n]
                    else
                    if n < 1102 then
                      if n = 1101 then [1069] else [n]
                      else
                      if n = 1102 then [1070] else [n]
              else
              if n < 1109 then
                if n < 1106 then
                  if n < 1104 then
                    if n = 1103 then [1071] else [n]
                    else
                    if n < 1105 then
                      if n = 1104 then [1024] else [n]
                      else
                      if n = 1105 then [1025] else [n]
                  else
                  if n < 1107 then
                    if n = 1106 then [1026] else [n]
                    else
                    if n < 1108 then
                      if n = 1107 then [1027] else [n]
                      else
                      if n = 1108 then [1028] else [n]
                else
                if n < 1112 then
                  if n < 1110 then
                    if n = 1109 then [1029] else [n]
                    else
                    if n < 1111 then
                      if n = 1110 then [1030] else [n]
                      else
                      if n = 1111 then [1031] else [n]
                  else
                  if n < 1113 then
                    if n = 1112 then [1032] else [n]
                    else
                    if n < 1114 then
                      if n = 1113 then [1033] else [n]
                      else
                      if n = 1114 then [1034] else [n]
            else
            if n < 1135 then
              if n < 1123 then
                if n < 1118 then
                  if n < 1116 then
                    if n = 1115 then [1035] else [n]
                    else
                    if n < 1117 then
                      if n = 1116 then [1036] else [n]
                      else
                      if n = 1117 then [1037] else [n]
                  else
                  if n < 1119 then
                    if n = 1118 then [1038] else [n]
                    else
                    if n < 1121 then
                      if n = 1119 then [1039] else [n]
                      else
                      if n = 1121 then [1120] else [n]
                else
                if n < 1129 then
                  if n < 1125 then
                    if n = 1123 then [1122] else [n]
                    else
                    if n < 1127 then
                      if n = 1125 then [1124] else [n]
                      else
                      if n = 1127 then [1126] else [n]
                  else
                  if n < 1131 then
                    if n = 1129 then [1128] else [n]
                    else
                    if n < 1133 then
                      if n = 1131 then [1130] else [n]
                      else
                      if n = 1133 then [1132] else [n]
              else
              if n < 1147 then
                if n < 1141 then
                  if n < 1137 then
                    if n = 1135 then [1134] else [n]
                    else
                    if n < 1139 then
                      if n = 1137 then [1136] else [n]
                      else
                      if n = 1139 then [1138] else [n]
                  else
                  if n < 1143 then
                    if n = 1141 then [1140] else [n]
                    else
                    if n < 1145 then
                      if n = 1143 then [1142] else [n]
                      else
                      if n = 1145 then [1144] else [n]
                else
                if n < 1153 then
                  if n < 1149 then
                    if n = 1147 then [1146] else [n]
                    else
                    if n < 1151 then
                      if n = 1149 then [1148] else [n]
                      else
                      if n = 1151 then [1150] else [n]
                  else
                  if n < 1163 then
                    if n = 1153 then [1152] else [n]
                    else
                    if n < 1165 then
                      if n = 1163 then [1162] else [n]
                      else
                      if n = 1165 then [1164] else [n]
    else
    if n < 7693 then
      if n < 1391 then
        if n < 1261 then
          if n < 1213 then
            if n < 1189 then
              if n < 1177 then
                if n < 1171 then
                  if n < 1169 then
                    if n = 1167 then [1166] else [n]
                    else
                    if n = 1169 then [1168] else [n]
                  else
                  if n < 1173 then
                    if n = 1171 then [1170] else [n]
                    else
                    if n < 1175 then
                      if n = 1173 then [1172] else [n]
                      else
                      if n = 1175 then [1174] else [n]
                else
                if n < 1183 then
                  if n < 1179 then
                    if n = 1177 then [1176] else [n]
                    else
                    if n < 1181 then
                      if n = 1179 then [1178] else [n]
                      else
                      if n = 1181 then [1180] else [n]
                  else
                  if n < 1185 then
                    if n = 1183 then [1182] else [n]
                    else
                    if n < 1187 then
                      if n = 1185 then [1184] else [n]
                      else
                      if n = 1187 then [1186] else [n]
              else
              if n < 1201 then
                if n < 1195 then
                  if n < 1191 then
                    if n = 1189 then [1188] else [n]
                    else
                    if n < 1193 then
                      if n = 1191 then [1190] else [n]
                      else
                      if n = 1193 then [1192] else [n]
                  else
                  if n < 1197 then
                    if n = 1195 then [1194] else [n]
                    else
                    if n < 1199 then
                      if n = 1197 then [1196] else [n]
                      else
                      if n = 1199 then [1198] else [n]
                else
                if n < 1207 then
                  if n < 1203 then
                    if n = 1201 then [1200] else [n]
                    else
                    if n < 1205 then
                      if n = 1203 then [1202] else [n]
                      else
                      if n = 1205 then [1204] else [n]
                  else
                  if n < 1209 then
                    if n = 1207 then [1206] else [n]
                    else
                    if n < 1211 then
                      if n = 1209 then [1208] else [n]
                      else
                      if n = 1211 then [1210] else [n]
            else
            if n < 1237 then
              if n < 1226 then
                if n < 1220 then
                  if n < 1215 then
                    if n = 1213 then [1212] else [n]
                    else
                    if n < 1218 then
                      if n = 1215 then [1214] else [n]
                      else
                      if n = 1218 then [1217] else [n]
                  else
                  if n < 1222 then
                    if n = 1220 then [1219] else [n]
                    else
                    if n < 1224 then
                      if n = 1222 then [1221] else [n]
                      else
                      if n = 1224 then [1223] else [n]
                else
                if n < 1231 then
                  if n < 1228 then
                    if n = 1226 then [1225] else [n]
                    else
                    if n < 1230 then
                      if n = 1228 then [1227] else [n]
                      else
                      if n = 1230 then [1229] else [n]
                  else
                  if n < 1233 then
                    if n = 1231 then [1216] else [n]
                    else
                    if n < 1235 then
                      if n = 1233 then [1232] else [n]
                      else
                      if n = 1235 then [1234] else [n]
              else
              if n < 1249 then
                if n < 1243 then
                  if n < 1239 then
                    if n = 1237 then [1236] else [n]
                    else
                    if n < 1241 then
                      if n = 1239 then [1238] else [n]
                      else
                      if n = 1241 then [1240] else [n]
                  else
                  if n < 1245 then
                    if n = 1243 then [1242] else [n]
                    else
                    if n < 1247 then
                      if n = 1245 then [1244] else [n]
                      else
                      if n = 1247 then [1246] else [n]
                else
                if n < 1255 then
                  if n < 1251 then
                    if n = 1249 then [1248] else [n]
                    else
                    if n < 1253 then
                      if n = 1251 then [1250] else [n]
                      else
                      if n = 1253 then [1252] else [n]
                  else
                  if n < 1257 then
                    if n = 1255 then [1254] else [n]
                    else
                    if n < 1259 then
                      if n = 1257 then [1256] else [n]
                      else
                      if n = 1259 then [1258] else [n]
          else
          if n < 1309 then
            if n < 1285 then
              if n < 1273 then
                if n < 1267 then
                  if n < 1263 then
                    if n = 1261 then [1260] else [n]
                    else
                    if n < 1265 then
                      if n = 1263 then [1262] else [n]
                      else
                      if n = 1265 then [1264] else [n]
                  else
                  if n < 1269 then
                    if n = 1267 then [1266] else [n]
                    else
                    if n < 1271 then
                      if n = 1269 then [1268] else [n]
                      else
                      if n = 1271 then [1270] else [n]
                else
                if n < 1279 then
                  if n < 1275 then
                    if n = 1273 then [1272] else [n]
                    else
                    if n < 1277 then
                      if n = 1275 then [1274] else [n]
                      else
                      if n = 1277 then [1276] else [n]
                  else
                  if n < 1281 then
                    if n = 1279 then [1278] else [n]
                    else
                    if n < 1283 then
                      if n = 1281 then [1280] else [n]
                      else
                      if n = 1283 then [1282] else [n]
              else
              if n < 1297 then
                if n < 1291 then
                  if n < 1287 then
                    if n = 1285 then [1284] else [n]
                    else
                    if n < 1289 then
                      if n = 1287 then [1286] else [n]
                      else
                      if n = 1289 then [1288] else [n]
                  else
                  if n < 1293 then
                    if n = 1291 then [1290] else [n]
                    else
                    if n < 1295 then
                      if n = 1293 then [1292] else [n]
                      else
                      if n = 1295 then [1294] else [n]
                else
                if n < 1303 then
                  if n < 1299 then
                    if n = 1297 then [1296] else [n]
                    else
                    if n < 1301 then
                      if n = 1299 then [1298] else [n]
                      else
                      if n = 1301 then [1300] else [n]
                  else
                  if n < 1305 then
                    if n = 1303 then [1302] else [n]
                    else
                    if n < 1307 then
                      if n = 1305 then [1304] else [n]
                      else
                      if n = 1307 then [1306] else [n]
            else
            if n < 1379 then
              if n < 1321 then
                if n < 1315 then
                  if n < 1311 then
                    if n = 1309 then [1308] else [n]
                    else
                    if n < 1313 then
                      if n = 1311 then [1310] else [n]
                      else
                      if n = 1313 then [1312] else [n]
                  else
                  if n < 1317 then
                    if n = 1315 then [1314] else [n]
                    else
                    if n < 1319 then
                      if n = 1317 then [1316] else [n]
                      else
                      if n = 1319 then [1318] else [n]
                else
                if n < 1327 then
                  if n < 1323 then
                    if n = 1321 then [1320] else [n]
                    else
                    if n < 1325 then
                      if n = 1323 then [1322] else [n]
                      else
                      if n = 1325 then [1324] else [n]
                  else
                  if n < 1377 then
                    if n = 1327 then [1326] else [n]
                    else
                    if n < 1378 then
                      if n = 1377 then [1329] else [n]
                      else
                      if n = 1378 then [1330] else [n]
              else
              if n < 1385 then
                if n < 1382 then
                  if n < 1380 then
                    if n = 1379 then [1331] else [n]
                    else
                    if n < 1381 then
                      if n = 1380 then [1332] else [n]
                      else
                      if n = 1381 then [1333] else [n]
                  else
                  if n < 1383 then
                    if n = 1382 then [1334] else [n]
                    else
                    if n < 1384 then
                      if n = 1383 then [1335] else [n]
                      else
                      if n = 1384 then [1336] else [n]
                else
                if n < 1388 then
                  if n < 1386 then
                    if n = 1385 then [1337] else [n]
                    else
                    if n < 1387 then
                      if n = 1386 then [1338] else [n]
                      else
                      if n = 1387 then [1339] else [n]
                  else
                  if n < 1389 then
                    if n = 1388 then [1340] else [n]
                    else
                    if n < 1390 then
                      if n = 1389 then [1341] else [n]
                      else
                      if n = 1390 then [1342] else [n]
        else
        if n < 4326 then
          if n < 1414 then
            if n < 1402 then
              if n < 1396 then
                if n < 1393 then
                  if n < 1392 then
                    if n = 1391 then [1343] else [n]
                    else
                    if n = 1392 then [1344] else [n]
                  else
                  if n < 1394 then
                    if n = 1393 then [1345] else [n]
                    else
                    if n < 1395 then
                      if n = 1394 then [1346] else [n]
                      else
                      if n = 1395 then [1347] else [n]
                else
                if n < 1399 then
                  if n < 1397 then
                    if n = 1396 then [1348] else [n]
                    else
                    if n < 1398 then
                      if n = 1397 then [1349] else [n]
                      else
                      if n = 1398 then [1350] else [n]
                  else
                  if n < 1400 then
                    if n = 1399 then [1351] else [n]
                    else
                    if n < 1401 then
                      if n = 1400 then [1352] else [n]
                      else
                      if n = 1401 then [1353] else [n]
              else
              if n < 1408 then
                if n < 1405 then
                  if n < 1403 then
                    if n = 1402 then [1354] else [n]
                    else
                    if n < 1404 then
                      if n = 1403 then [1355] else [n]
                      else
                      if n = 1404 then [1356] else [n]
                  else
                  if n < 1406 then
                    if n = 1405 then [1357] else [n]
                    else
                    if n < 1407 then
                      if n = 1406 then [1358] else [n]
                      else
                      if n = 1407 then [1359] else [n]
                else
                if n < 1411 then
                  if n < 1409 then
                    if n = 1408 then [1360] else [n]
                    else
                    if n < 1410 then
                      if n = 1409 then [1361] else [n]
                      else
                      if n = 1410 then [1362] else [n]
                  else
                  if n < 1412 then
                    if n = 1411 then [1363] else [n]
                    else
                    if n < 1413 then
                      if n = 1412 then [1364] else [n]
                      else
                      if n = 1413 then [1365] else [n]
            else
            if n < 4314 then
              if n < 4308 then
                if n < 4305 then
                  if n < 1415 then
                    if n = 1414 then [1366] else [n]
                    else
                    if n < 4304 then
                      if n = 1415 then [1333, 1362] else [n]
                      else
                      if n = 4304 then [7312] else [n]
                  else
                  if n < 4306 then
                    if n = 4305 then [7313] else [n]
                    else
                    if n < 4307 then
                      if n = 4306 then [7314] else [n]
                      else
                      if n = 4307 then [7315] else [n]
                else
                if n < 4311 then
                  if n < 4309 then
                    if n = 4308 then [7316] else [n]
                    else
                    if n < 4310 then
                      if n = 4309 then [7317] else [n]
                      else
                      if n = 4310 then [7318] else [n]
                  else
                  if n < 4312 then
                    if n = 4311 then [7319] else [n]
                    else
                    if n < 4313 then
                      if n = 4312 then [7320] else [n]
                      else
                      if n = 4313 then [7321] else [n]
              else
              if n < 4320 then
                if n < 4317 then
                  if n < 4315 then
                    if n = 4314 then [7322] else [n]
                    else
                    if n < 4316 then
                      if n = 4315 then [7323] else [n]
                      else
                      if n = 4316 then [7324] else [n]
                  else
                  if n < 4318 then
                    if n = 4317 then [7325] else [n]
                    else
                    if n < 4319 then
                      if n = 4318 then [7326] else [n]
                      else
                      if n = 4319 then [7327] else [n]
                else
                if n < 4323 then
                  if n < 4321 then
                    if n = 4320 then [7328] else [n]
                    else
                    if n < 4322 then
                      if n = 4321 then [7329] else [n]
                      else
                      if n = 4322 then [7330] else [n]
                  else
                  if n < 4324 then
                    if n = 4323 then [7331] else [n]
                    else
                    if n < 4325 then
                      if n = 4324 then [7332] else [n]
                      else
                      if n = 4325 then [7333] else [n]
          else
          if n < 5112 then
            if n < 4338 then
              if n < 4332 then
                if n < 4329 then
                  if n < 4327 then
                    if n = 4326 then [7334] else [n]
                    else
                    if n < 4328 then
                      if n = 4327 then [7335] else [n]
                      else
                      if n = 4328 then [7336] else [n]
                  else
                  if n < 4330 then
                    if n = 4329 then [7337] else [n]
                    else
                    if n < 4331 then
                      if n = 4330 then [7338] else [n]
                      else
                      if n = 4331 then [7339] else [n]
                else
                if n < 4335 then
                  if n < 4333 then
                    if n = 4332 then [7340] else [n]
                    else
                    if n < 4334 then
                      if n = 4333 then [7341] else [n]
                      else
                      if n = 4334 then [7342] else [n]
                  else
                  if n < 4336 then
                    if n = 4335 then [7343] else [n]
                    else
                    if n < 4337 then
                      if n = 4336 then [7344] else [n]
                      else
                      if n = 4337 then [7345] else [n]
              else
              if n < 4344 then
                if n < 4341 then
                  if n < 4339 then
                    if n = 4338 then [7346] else [n]
                    else
                    if n < 4340 then
                      if n = 4339 then [7347] else [n]
                      else
                      if n = 4340 then [7348] else [n]
                  else
                  if n < 4342 then
                    if n = 4341 then [7349] else [n]
                    else
                    if n < 4343 then
                      if n = 4342 then [7350] else [n]
                      else
                      if n = 4343 then [7351] else [n]
                else
                if n < 4349 then
                  if n < 4345 then
                    if n = 4344 then [7352] else [n]
                    else
                    if n < 4346 then
                      if n = 4345 then [7353] else [n]
                      else
                      if n = 4346 then [7354] else [n]
                  else
                  if n < 4350 then
                    if n = 4349 then [7357] else [n]
                    else
                    if n < 4351 then
                      if n = 4350 then [7358] else [n]
                      else
                      if n = 4351 then [7359] else [n]
            else
            if n < 7302 then
              if n < 7296 then
                if n < 5115 then
                  if n < 5113 then
                    if n = 5112 then [5104] else [n]
                    else
                    if n < 5114 then
                      if n = 5113 then [5105] else [n]
                      else
                      if n = 5114 then [5106] else [n]
                  else
                  if n < 5116 then
                    if n = 5115 then [5107] else [n]
                    else
                    if n < 5117 then
                      if n = 5116 then [5108] else [n]
                      else
                      if n = 5117 then [5109] else [n]
                else
                if n < 7299 then
                  if n < 7297 then
                    if n = 7296 then [1042] else [n]
                    else
                    if n < 7298 then
                      if n = 7297 then [1044] else [n]
                      else
                      if n = 7298 then [1054] else [n]
                  else
                  if n < 7300 then
                    if n = 7299 then [1057] else [n]
                    else
                    if n < 7301 then
                      if n = 7300 then [1058] else [n]
                      else
                      if n = 7301 then [1058] else [n]
              else
              if n < 7681 then
                if n < 7545 then
                  if n < 7303 then
                    if n = 7302 then [1066] else [n]
                    else
                    if n < 7304 then
                      if n = 7303 then [1122] else [n]
                      else
                      if n = 7304 then [42570] else [n]
                  else
                  if n < 7549 then
                    if n = 7545 then [42877] else [n]
                    else
                    if n < 7566 then
                      if n = 7549 then [11363] else [n]
                      else
                      if n = 7566 then [42950] else [n]
                else
                if n < 7687 then
                  if n < 7683 then
                    if n = 7681 then [7680] else [n]
                    else
                    if n < 7685 then
                      if n = 7683 then [7682] else [n]
                      else
                      if n = 7685 then [7684] else [n]
                  else
                  if n < 7689 then
                    if n = 7687 then [7686] else [n]
                    else
                    if n < 7691 then
                      if n = 7689 then [7688] else [n]
                      else
                      if n = 7691 then [7690] else [n]
      else
      if n < 7881 then
        if n < 7787 then
          if n < 7739 then
            if n < 7715 then
              if n < 7703 then
                if n < 7697 then
                  if n < 7695 then
                    if n = 7693 then [7692] else [n]
                    else
                    if n = 7695 then [7694] else [n]
                  else
                  if n < 7699 then
                    if n = 7697 then [7696] else [n]
                    else
                    if n < 7701 then
                      if n = 7699 then [7698] else [n]
                      else
                      if n = 7701 then [7700] else [n]
                else
                if n < 7709 then
                  if n < 7705 then
                    if n = 7703 then [7702] else [n]
                    else
                    if n < 7707 then
                      if n = 7705 then [7704] else [n]
                      else
                      if n = 7707 then [7706] else [n]
                  else
                  if n < 7711 then
                    if n = 7709 then [7708] else [n]
                    else
                    if n < 7713 then
                      if n = 7711 then [7710] else [n]
                      else
                      if n = 7713 then [7712] else [n]
              else
              if n < 7727 then
                if n < 7721 then
                  if n < 7717 then
                    if n = 7715 then [7714] else [n]
                    else
                    if n < 7719 then
                      if n = 7717 then [7716] else [n]
                      else
                      if n = 7719 then [7718] else [n]
                  else
                  if n < 7723 then
                    if n = 7721 then [7720] else [n]
                    else
                    if n < 7725 then
                      if n = 7723 then [7722] else [n]
                      else
                      if n = 7725 then [7724] else [n]
                else
                if n < 7733 then
                  if n < 7729 then
                    if n = 7727 then [7726] else [n]
                    else
                    if n < 7731 then
                      if n = 7729 then [7728] else [n]
                      else
                      if n = 7731 then [7730] else [n]
                  else
                  if n < 7735 then
                    if n = 7733 then [7732] else [n]
                    else
                    if n < 7737 then
                      if n = 7735 then [7734] else [n]
                      else
                      if n = 7737 then [7736] else [n]
            else
            if n < 7763 then
              if n < 7751 then
                if n < 7745 then
                  if n < 7741 then
                    if n = 7739 then [7738] else [n]
                    else
                    if n < 7743 then
                      if n = 7741 then [7740] else [n]
                      else
                      if n = 7743 then [7742] else [n]
                  else
                  if n < 7747 then
                    if n = 7745 then [7744] else [n]
                    else
                    if n < 7749 then
                      if n = 7747 then [7746] else [n]
                      else
                      if n = 7749 then [7748] else [n]
                else
                if n < 7757 then
                  if n < 7753 then
                    if n = 7751 then [7750] else [n]
                    else
                    if n < 7755 then
                      if n = 7753 then [7752] else [n]
                      else
                      if n = 7755 then [7754] else [n]
                  else
                  if n < 7759 then
                    if n = 7757 then [7756] else [n]
                    else
                    if n < 7761 then
                      if n = 7759 then [7758] else [n]
                      else
                      if n = 7761 then [7760] else [n]
              else
              if n < 7775 then
                if n < 7769 then
                  if n < 7765 then
                    if n = 7763 then [7762] else [n]
                    else
                    if n < 7767 then
                      if n = 7765 then [7764] else [n]
                      else
                      if n = 7767 then [7766] else [n]
                  else
                  if n < 7771 then
                    if n = 7769 then [7768] else [n]
                    else
                    if n < 7773 then
                      if n = 7771 then [7770] else [n]
                      else
                      if n = 7773 then [7772] else [n]
                else
                if n < 7781 then
                  if n < 7777 then
                    if n = 7775 then [7774] else [n]
                    else
                    if n < 7779 then
                      if n = 7777 then [7776] else [n]
                      else
                      if n = 7779 then [7778] else [n]
                  else
                  if n < 7783 then
                    if n = 7781 then [7780] else [n]
                    else
                    if n < 7785 then
                      if n = 7783 then [7782] else [n]
                      else
                      if n = 7785 then [7784] else [n]
          else
          if n < 7832 then
            if n < 7811 then
              if n < 7799 then
                if n < 7793 then
                  if n < 7789 then
                    if n = 7787 then [7786] else [n]
                    else
                    if n < 7791 then
                      if n = 7789 then [7788] else [n]
                      else
                      if n = 7791 then [7790] else [n]
                  else
                  if n < 7795 then
                    if n = 7793 then [7792] else [n]
                    else
                    if n < 7797 then
                      if n = 7795 then [7794] else [n]
                      else
                      if n = 7797 then [7796] else [n]
                else
                if n < 7805 then
                  if n < 7801 then
                    if n = 7799 then [7798] else [n]
                    else
                    if n < 7803 then
                      if n = 7801 then [7800] else [n]
                      else
                      if n = 7803 then [7802] else [n]
                  else
                  if n < 7807 then
                    if n = 7805 then [7804] else [n]
                    else
                    if n < 7809 then
                      if n = 7807 then [7806] else [n]
                      else
                      if n = 7809 then [7808] else [n]
              else
              if n < 7823 then
                if n < 7817 then
                  if n < 7813 then
                    if n = 7811 then [7810] else [n]
                    else
                    if n < 7815 then
                      if n = 7813 then [7812] else [n]
                      else
                      if n = 7815 then [7814] else [n]
                  else
                  if n < 7819 then
                    if n = 7817 then [7816] else [n]
                    else
                    if n < 7821 then
                      if n = 7819 then [7818] else [n]
                      else
                      if n = 7821 then [7820] else [n]
                else
                if n < 7829 then
                  if n < 7825 then
                    if n = 7823 then [7822] else [n]
                    else
                    if n < 7827 then
                      if n = 7825 then [7824] else [n]
                      else
                      if n = 7827 then [7826] else [n]
                  else
                  if n < 7830 then
                    if n = 7829 then [7828] else [n]
                    else
                    if n < 7831 then
                      if n = 7830 then [72, 817] else [n]
                      else
                      if n = 7831 then [84, 776] else [n]
            else
            if n < 7857 then
              if n < 7845 then
                if n < 7835 then
                  if n < 7833 then
                    if n = 7832 then [87, 778] else [n]
                    else
                    if n < 7834 then
                      if n = 7833 then [89, 778] else [n]
                      else
                      if n = 7834 then [65, 702] else [n]
                  else
                  if n < 7841 then
                    if n = 7835 then [7776] else [n]
                    else
                    if n < 7843 then
                      if n = 7841 then [7840] else [n]
                      else
                      if n = 7843 then [7842] else [n]
                else
                if n < 7851 then
                  if n < 7847 then
                    if n = 7845 then [7844] else [n]
                    else
                    if n < 7849 then
                      if n = 7847 then [7846] else [n]
                      else
                      if n = 7849 then [7848] else [n]
                  else
                  if n < 7853 then
                    if n = 7851 then [7850] else [n]
                    else
                    if n < 7855 then
                      if n = 7853 then [7852] else [n]
                      else
                      if n = 7855 then [7854] else [n]
              else
              if n < 7869 then
                if n < 7863 then
                  if n < 7859 then
                    if n = 7857 then [7856] else [n]
                    else
                    if n < 7861 then
                      if n = 7859 then [7858] else [n]
                      else
                      if n = 7861 then [7860] else [n]
                  else
                  if n < 7865 then
                    if n = 7863 then [7862] else [n]
                    else
                    if n < 7867 then
                      if n = 7865 then [7864] else [n]
                      else
                      if n = 7867 then [7866] else [n]
                else
                if n < 7875 then
                  if n < 7871 then
                    if n = 7869 then [7868] else [n]
                    else
                    if n < 7873 then
                      if n = 7871 then [7870] else [n]
                      else
                      if n = 7873 then [7872] else [n]
                  else
                  if n < 7877 then
                    if n = 7875 then [7874] else [n]
                    else
                    if n < 7879 then
                      if n = 7877 then [7876] else [n]
                      else
                      if n = 7879 then [7878] else [n]
        else
        if n < 7974 then
          if n < 7929 then
            if n < 7905 then
              if n < 7893 then
                if n < 7887 then
                  if n < 7883 then
                    if n = 7881 then [7880] else [n]
                    else
                    if n < 7885 then
                      if n = 7883 then [7882] else [n]
                      else
                      if n = 7885 then [7884] else [n]
                  else
                  if n < 7889 then
                    if n = 7887 then [7886] else [n]
                    else
                    if n < 7891 then
                      if n = 7889 then [7888] else [n]
                      else
                      if n = 7891 then [7890] else [n]
                else
                if n < 7899 then
                  if n < 7895 then
                    if n = 7893 then [7892] else [n]
                    else
                    if n < 7897 then
                      if n = 7895 then [7894] else [n]
                      else
                      if n = 7897 then [7896] else [n]
                  else
                  if n < 7901 then
                    if n = 7899 then [7898] else [n]
                    else
                    if n < 7903 then
                      if n = 7901 then [7900] else [n]
                      else
                      if n = 7903 then [7902] else [n]
              else
              if n < 7917 then
                if n < 7911 then
                  if n < 7907 then
                    if n = 7905 then [7904] else [n]
                    else
                    if n < 7909 then
                      if n = 7907 then [7906] else [n]
                      else
                      if n = 7909 then [7908] else [n]
                  else
                  if n < 7913 then
                    if n = 7911 then [7910] else [n]
                    else
                    if n < 7915 then
                      if n = 7913 then [7912] else [n]
                      else
                      if n = 7915 then [7914] else [n]
                else
                if n < 7923 then
                  if n < 7919 then
                    if n = 7917 then [7916] else [n]
                    else
                    if n < 7921 then
                      if n = 7919 then [7918] else [n]
                      else
                      if n = 7921 then [7920] else [n]
                  else
                  if n < 7925 then
                    if n = 7923 then [7922] else [n]
                    else
                    if n < 7927 then
                      if n = 7925 then [7924] else [n]
                      else
                      if n = 7927 then [7926] else [n]
            else
            if n < 7952 then
              if n < 7938 then
                if n < 7935 then
                  if n < 7931 then
                    if n = 7929 then [7928] else [n]
                    else
                    if n < 7933 then
                      if n = 7931 then [7930] else [n]
                      else
                      if n = 7933 then [7932] else [n]
                  else
                  if n < 7936 then
                    if n = 7935 then [7934] else [n]
                    else
                    if n < 7937 then
                      if n = 7936 then [7944] else [n]
                      else
                      if n = 7937 then [7945] else [n]
                else
                if n < 7941 then
                  if n < 7939 then
                    if n = 7938 then [7946] else [n]
                    else
                    if n < 7940 then
                      if n = 7939 then [7947] else [n]
                      else
                      if n = 7940 then [7948] else [n]
                  else
                  if n < 7942 then
                    if n = 7941 then [7949] else [n]
                    else
                    if n < 7943 then
                      if n = 7942 then [7950] else [n]
                      else
                      if n = 7943 then [7951] else [n]
              else
              if n < 7968 then
                if n < 7955 then
                  if n < 7953 then
                    if n = 7952 then [7960] else [n]
                    else
                    if n < 7954 then
                      if n = 7953 then [7961] else [n]
                      else
                      if n = 7954 then [7962] else [n]
                  else
                  if n < 7956 then
                    if n = 7955 then [7963] else [n]
                    else
                    if n < 7957 then
                      if n = 7956 then [7964] else [n]
                      else
                      if n = 7957 then [7965] else [n]
                else
                if n < 7971 then
                  if n < 7969 then
                    if n = 7968 then [7976] else [n]
                    else
                    if n < 7970 then
                      if n = 7969 then [7977] else [n]
                      else
                      if n = 7970 then [7978] else [n]
                  else
                  if n < 7972 then
                    if n = 7971 then [7979] else [n]
                    else
                    if n < 7973 then
                      if n = 7972 then [7980] else [n]
                      else
                      if n = 7973 then [7981] else [n]
          else
          if n < 8032 then
            if n < 8002 then
              if n < 7988 then
                if n < 7985 then
                  if n < 7975 then
                    if n = 7974 then [7982] else [n]
                    else
                    if n < 7984 then
                      if n = 7975 then [7983] else [n]
                      else
                      if n = 7984 then [7992] else [n]
                  else
                  if n < 7986 then
                    if n = 7985 then [7993] else [n]
                    else
                    if n < 7987 then
                      if n = 7986 then [7994] else [n]
                      else
                      if n = 7987 then [7995] else [n]
                else
                if n < 7991 then
                  if n < 7989 then
                    if n = 7988 then [7996] else [n]
                    else
                    if n < 7990 then
                      if n = 7989 then [7997] else [n]
                      else
                      if n = 7990 then [7998] else [n]
                  else
                  if n < 8000 then
                    if n = 7991 then [7999] else [n]
                    else
                    if n < 8001 then
                      if n = 8000 then [8008] else [n]
                      else
                      if n = 8001 then [8009] else [n]
              else
              if n < 8018 then
                if n < 8005 then
                  if n < 8003 then
                    if n = 8002 then [8010] else [n]
                    else
                    if n < 8004 then
                      if n = 8003 then [8011] else [n]
                      else
                      if n = 8004 then [8012] else [n]
                  else
                  if n < 8016 then
                    if n = 8005 then [8013] else [n]
                    else
                    if n < 8017 then
                      if n = 8016 then [933, 787] else [n]
                      else
                      if n = 8017 then [8025] else [n]
                else
                if n < 8021 then
                  if n < 8019 then
                    if n = 8018 then [933, 787, 768] else [n]
                    else
                    if n < 8020 then
                      if n = 8019 then [8027] else [n]
                      else
                      if n = 8020 then [933, 787, 769] else [n]
                  else
                  if n < 8022 then
                    if n = 8021 then [8029] else [n]
                    else
                    if n < 8023 then
                      if n = 8022 then [933, 787, 834] else [n]
                      else
                      if n = 8023 then [8031] else [n]
            else
            if n < 8052 then
              if n < 8038 then
                if n < 8035 then
                  if n < 8033 then
                    if n = 8032 then [8040] else [n]
                    else
                    if n < 8034 then
                      if n = 8033 then [8041] else [n]
                      else
                      if n = 8034 then [8042] else [n]
                  else
                  if n < 8036 then
                    if n = 8035 then [8043] else [n]
                    else
                    if n < 8037 then
                      if n = 8036 then [8044] else [n]
                      else
                      if n = 8037 then [8045] else [n]
                else
                if n < 8049 then
                  if n < 8039 then
                    if n = 8038 then [8046] else [n]
                    else
                    if n < 8048 then
                      if n = 8039 then [8047] else [n]
                      else
                      if n = 8048 then [8122] else [n]
                  else
                  if n < 8050 then
                    if n = 8049 then [8123] else [n]
                    else
                    if n < 8051 then
                      if n = 8050 then [8136] else [n]
                      else
                      if n = 8051 then [8137] else [n]
              else
              if n < 8058 then
                if n < 8055 then
                  if n < 8053 then
                    if n = 8052 then [8138] else [n]
                    else
                    if n < 8054 then
                      if n = 8053 then [8139] else [n]
                      else
                      if n = 8054 then [8154] else [n]
                  else
                  if n < 8056 then
                    if n = 8055 then [8155] else [n]
                    else
                    if n < 8057 then
                      if n = 8056 then [8184] else [n]
                      else
                      if n = 8057 then [8185] else [n]
                else
                if n < 8061 then
                  if n < 8059 then
                    if n = 8058 then [8170] else [n]
                    else
                    if n < 8060 then
                      if n = 8059 then [8171] else [n]
                      else
                      if n = 8060 then [8186] else [n]
                  else
                  if n < 8064 then
                    if n = 8061 then [8187] else [n]
                    else
                    if n < 8065 then
                      if n = 8064 then [7944, 921] else [n]
                      else
                      if n = 8065 then [7945, 921] else [n]
  else
  if n < 42967 then
    if n < 11411 then
      if n < 8573 then
        if n < 8113 then
          if n < 8089 then
            if n < 8077 then
              if n < 8071 then
                if n < 8068 then
                  if n < 8067 then
                    if n = 8066 then [7946, 921] else [n]
                    else
                    if n = 8067 then [7947, 921] else [n]
                  else
                  if n < 8069 then
                    if n = 8068 then [7948, 921] else [n]
                    else
                    if n < 8070 then
                      if n = 8069 then [7949, 921] else [n]
                      else
                      if n = 8070 then [7950, 921] else [n]
                else
                if n < 8074 then
                  if n < 8072 then
                    if n = 8071 then [7951, 921] else [n]
                    else
                    if n < 8073 then
                      if n = 8072 then [7944, 921] else [n]
                      else
                      if n = 8073 then [7945, 921] else [n]
                  else
                  if n < 8075 then
                    if n = 8074 then [7946, 921] else [n]
                    else
                    if n < 8076 then
                      if n = 8075 then [7947, 921] else [n]
                      else
                      if n = 8076 then [7948, 921] else [n]
              else
              if n < 8083 then
                if n < 8080 then
                  if n < 8078 then
                    if n = 8077 then [7949, 921] else [n]
                    else
                    if n < 8079 then
                      if n = 8078 then [7950, 921] else [n]
                      else
                      if n = 8079 then [7951, 921] else [n]
                  else
                  if n < 8081 then
                    if n = 8080 then [7976, 921] else [n]
                    else
                    if n < 8082 then
                      if n = 8081 then [7977, 921] else [n]
                      else
                      if n = 8082 then [7978, 921] else [n]
                else
                if n < 8086 then
                  if n < 8084 then
                    if n = 8083 then [7979, 921] else [n]
                    else
                    if n < 8085 then
                      if n = 8084 then [7980, 921] else [n]
                      else
                      if n = 8085 then [7981, 921] else [n]
                  else
                  if n < 8087 then
                    if n = 8086 then [7982, 921] else [n]
                    else
                    if n < 8088 then
                      if n = 8087 then [7983, 921] else [n]
                      else
                      if n = 8088 then [7976, 921] else [n]
            else
            if n < 8101 then
              if n < 8095 then
                if n < 8092 then
                  if n < 8090 then
                    if n = 8089 then [7977, 921] else [n]
                    else
                    if n < 8091 then
                      if n = 8090 then [7978, 921] else [n]
                      else
                      if n = 8091 then [7979, 921] else [n]
                  else
                  if n < 8093 then
                    if n = 8092 then [7980, 921] else [n]
                    else
                    if n < 8094 then
                      if n = 8093 then [7981, 921] else [n]
                      else
                      if n = 8094 then [7982, 921] else [n]
                else
                if n < 8098 then
                  if n < 8096 then
                    if n = 8095 then [7983, 921] else [n]
                    else
                    if n < 8097 then
                      if n = 8096 then [8040, 921] else [n]
                      else
                      if n = 8097 then [8041, 921] else [n]
                  else
                  if n < 8099 then
                    if n = 8098 then [8042, 921] else [n]
                    else
                    if n < 8100 then
                      if n = 8099 then [8043, 921] else [n]
                      else
                      if n = 8100 then [8044, 921] else [n]
              else
              if n < 8107 then
                if n < 8104 then
                  if n < 8102 then
                    if n = 8101 then [8045, 921] else [n]
                    else
                    if n < 8103 then
                      if n = 8102 then [8046, 921] else [n]
                      else
                      if n = 8103 then [8047, 921] else [n]
                  else
                  if n < 8105 then
                    if n = 8104 then [8040, 921] else [n]
                    else
                    if n < 8106 then
                      if n = 8105 then [8041, 921] else [n]
                      else
                      if n = 8106 then [8042, 921] else [n]
                else
                if n < 8110 then
                  if n < 8108 then
                    if n = 8107 then [8043, 921] else [n]
                    else
                    if n < 8109 then
                      if n = 8108 then [8044, 921] else [n]
                      else
                      if n = 8109 then [8045, 921] else [n]
                  else
                  if n < 8111 then
                    if n = 8110 then [8046, 921] else [n]
                    else
                    if n < 8112 then
                      if n = 8111 then [8047, 921] else [n]
                      else
                      if n = 8112 then [8120] else [n]
          else
          if n < 8164 then
            if n < 8135 then
              if n < 8124 then
                if n < 8116 then
                  if n < 8114 then
                    if n = 8113 then [8121] else [n]
                    else
                    if n < 8115 then
                      if n = 8114 then [8122, 921] else [n]
                      else
                      if n = 8115 then [913, 921] else [n]
                  else
                  if n < 8118 then
                    if n = 8116 then [902, 921] else [n]
                    else
                    if n < 8119 then
                      if n = 8118 then [913, 834] else [n]
                      else
                      if n = 8119 then [913, 834, 921] else [n]
                else
                if n < 8131 then
                  if n < 8126 then
                    if n = 8124 then [913, 921] else [n]
                    else
                    if n < 8130 then
                      if n = 8126 then [921] else [n]
                      else
                      if n = 8130 then [8138, 921] else [n]
                  else
                  if n < 8132 then
                    if n = 8131 then [919, 921] else [n]
                    else
                    if n < 8134 then
                      if n = 8132 then [905, 921] else [n]
                      else
                      if n = 8134 then [919, 834] else [n]
              else
              if n < 8150 then
                if n < 8145 then
                  if n < 8140 then
                    if n = 8135 then [919, 834, 921] else [n]
                    else
                    if n < 8144 then
                      if n = 8140 then [919, 921] else [n]
                      else
                      if n = 8144 then [8152] else [n]
                  else
                  if n < 8146 then
                    if n = 8145 then [8153] else [n]
                    else
                    if n < 8147 then
                      if n = 8146 then [921, 776, 768] else [n]
                      else
                      if n = 8147 then [921, 776, 769] else [n]
                else
                if n < 8161 then
                  if n < 8151 then
                    if n = 8150 then [921, 834] else [n]
                    else
                    if n < 8160 then
                      if n = 8151 then [921, 776, 834] else [n]
                      else
                      if n = 8160 then [8168] else [n]
                  else
                  if n < 8162 then
                    if n = 8161 then [8169] else [n]
                    else
                    if n < 8163 then
                      if n = 8162 then [933, 776, 768] else [n]
                      else
                      if n = 8163 then [933, 776, 769] else [n]
            else
            if n < 8561 then
              if n < 8180 then
                if n < 8167 then
                  if n < 8165 then
                    if n = 8164 then [929, 787] else [n]
                    else
                    if n < 8166 then
                      if n = 8165 then [8172] else [n]
                      else
                      if n = 8166 then [933, 834] else [n]
                  else
                  if n < 8178 then
                    if n = 8167 then [933, 776, 834] else [n]
                    else
                    if n < 8179 then
                      if n = 8178 then [8186, 921] else [n]
                      else
                      if n = 8179 then [937, 921] else [n]
                else
                if n < 8188 then
                  if n < 8182 then
                    if n = 8180 then [911, 921] else [n]
                    else
                    if n < 8183 then
                      if n = 8182 then [937, 834] else [n]
                      else
                      if n = 8183 then [937, 834, 921] else [n]
                  else
                  if n < 8526 then
                    if n = 8188 then [937, 921] else [n]
                    else
                    if n < 8560 then
                      if n = 8526 then [8498] else [n]
                      else
                      if n = 8560 then [8544] else [n]
              else
              if n < 8567 then
                if n < 8564 then
                  if n < 8562 then
                    if n = 8561 then [8545] else [n]
                    else
                    if n < 8563 then
                      if n = 8562 then [8546] else [n]
                      else
                      if n = 8563 then [8547] else [n]
                  else
                  if n < 8565 then
                    if n = 8564 then [8548] else [n]
                    else
                    if n < 8566 then
                      if n = 8565 then [8549] else [n]
                      else
                      if n = 8566 then [8550] else [n]
                else
                if n < 8570 then
                  if n < 8568 then
                    if n = 8567 then [8551] else [n]
                    else
                    if n < 8569 then
                      if n = 8568 then [8552] else [n]
                      else
                      if n = 8569 then [8553] else [n]
                  else
                  if n < 8571 then
                    if n = 8570 then [8554] else [n]
                    else
                    if n < 8572 then
                      if n = 8571 then [8555] else [n]
                      else
                      if n = 8572 then [8556] else [n]
        else
        if n < 11329 then
          if n < 9443 then
            if n < 9431 then
              if n < 9425 then
                if n < 8575 then
                  if n < 8574 then
                    if n = 8573 then [8557] else [n]
                    else
                    if n = 8574 then [8558] else [n]
                  else
                  if n < 8580 then
                    if n = 8575 then [8559] else [n]
                    else
                    if n < 9424 then
                      if n = 8580 then [8579] else [n]
                      else
                      if n = 9424 then [9398] else [n]
                else
                if n < 9428 then
                  if n < 9426 then
                    if n = 9425 then [9399] else [n]
                    else
                    if n < 9427 then
                      if n = 9426 then [9400] else [n]
                      else
                      if n = 9427 then [9401] else [n]
                  else
                  if n < 9429 then
                    if n = 9428 then [9402] else [n]
                    else
                    if n < 9430 then
                      if n = 9429 then [9403] else [n]
                      else
                      if n = 9430 then [9404] else [n]
              else
              if n < 9437 then
                if n < 9434 then
                  if n < 9432 then
                    if n = 9431 then [9405] else [n]
                    else
                    if n < 9433 then
                      if n = 9432 then [9406] else [n]
                      else
                      if n = 9433 then [9407] else [n]
                  else
                  if n < 9435 then
                    if n = 9434 then [9408] else [n]
                    else
                    if n < 9436 then
                      if n = 9435 then [9409] else [n]
                      else
                      if n = 9436 then [9410] else [n]
                else
                if n < 9440 then
                  if n < 9438 then
                    if n = 9437 then [9411] else [n]
                    else
                    if n < 9439 then
                      if n = 9438 then [9412] else [n]
                      else
                      if n = 9439 then [9413] else [n]
                  else
                  if n < 9441 then
                    if n = 9440 then [9414] else [n]
                    else
                    if n < 9442 then
                      if n = 9441 then [9415] else [n]
                      else
                      if n = 9442 then [9416] else [n]
            else
            if n < 11317 then
              if n < 9449 then
                if n < 9446 then
                  if n < 9444 then
                    if n = 9443 then [9417] else [n]
                    else
                    if n < 9445 then
                      if n = 9444 then [9418] else [n]
                      else
                      if n = 9445 then [9419] else [n]
                  else
                  if n < 9447 then
                    if n = 9446 then [9420] else [n]
                    else
                    if n < 9448 then
                      if n = 9447 then [9421] else [n]
                      else
                      if n = 9448 then [9422] else [n]
                else
                if n < 11314 then
                  if n < 11312 then
                    if n = 9449 then [9423] else [n]
                    else
                    if n < 11313 then
                      if n = 11312 then [11264] else [n]
                      else
                      if n = 11313 then [11265] else [n]
                  else
                  if n < 11315 then
                    if n = 11314 then [11266] else [n]
                    else
                    if n < 11316 then
                      if n = 11315 then [11267] else [n]
                      else
                      if n = 11316 then [11268] else [n]
              else
              if n < 11323 then
                if n < 11320 then
                  if n < 11318 then
                    if n = 11317 then [11269] else [n]
                    else
                    if n < 11319 then
                      if n = 11318 then [11270] else [n]
                      else
                      if n = 11319 then [11271] else [n]
                  else
                  if n < 11321 then
                    if n = 11320 then [11272] else [n]
                    else
                    if n < 11322 then
                      if n = 11321 then [11273] else [n]
                      else
                      if n = 11322 then [11274] else [n]
                else
                if n < 11326 then
                  if n < 11324 then
                    if n = 11323 then [11275] else [n]
                    else
                    if n < 11325 then
                      if n = 11324 then [11276] else [n]
                      else
                      if n = 11325 then [11277] else [n]
                  else
                  if n < 11327 then
                    if n = 11326 then [11278] else [n]
                    else
                    if n < 11328 then
                      if n = 11327 then [11279] else [n]
                      else
                      if n = 11328 then [11280] else [n]
          else
          if n < 11353 then
            if n < 11341 then
              if n < 11335 then
                if n < 11332 then
                  if n < 11330 then
                    if n = 11329 then [11281] else [n]
                    else
                    if n < 11331 then
                      if n = 11330 then [11282] else [n]
                      else
                      if n = 11331 then [11283] else [n]
                  else
                  if n < 11333 then
                    if n = 11332 then [11284] else [n]
                    else
                    if n < 11334 then
                      if n = 11333 then [11285] else [n]
                      else
                      if n = 11334 then [11286] else [n]
                else
                if n < 11338 then
                  if n < 11336 then
                    if n = 11335 then [11287] else [n]
                    else
                    if n < 11337 then
                      if n = 11336 then [11288] else [n]
                      else
                      if n = 11337 then [11289] else [n]
                  else
                  if n < 11339 then
                    if n = 11338 then [11290] else [n]
                    else
                    if n < 11340 then
                      if n = 11339 then [11291] else [n]
                      else
                      if n = 11340 then [11292] else [n]
              else
              if n < 11347 then
                if n < 11344 then
                  if n < 11342 then
                    if n = 11341 then [11293] else [n]
                    else
                    if n < 11343 then
                      if n = 11342 then [11294] else [n]
                      else
                      if n = 11343 then [11295] else [n]
                  else
                  if n < 11345 then
                    if n = 11344 then [11296] else [n]
                    else
                    if n < 11346 then
                      if n = 11345 then [11297] else [n]
                      else
                      if n = 11346 then [11298] else [n]
                else
                if n < 11350 then
                  if n < 11348 then
                    if n = 11347 then [11299] else [n]
                    else
                    if n < 11349 then
                      if n = 11348 then [11300] else [n]
                      else
                      if n = 11349 then [11301] else [n]
                  else
                  if n < 11351 then
                    if n = 11350 then [11302] else [n]
                    else
                    if n < 11352 then
                      if n = 11351 then [11303] else [n]
                      else
                      if n = 11352 then [11304] else [n]
            else
            if n < 11372 then
              if n < 11359 then
                if n < 11356 then
                  if n < 11354 then
                    if n = 11353 then [11305] else [n]
                    else
                    if n < 11355 then
                      if n = 11354 then [11306] else [n]
                      else
                      if n = 11355 then [11307] else [n]
                  else
                  if n < 11357 then
                    if n = 11356 then [11308] else [n]
                    else
                    if n < 11358 then
                      if n = 11357 then [11309] else [n]
                      else
                      if n = 11358 then [11310] else [n]
                else
                if n < 11366 then
                  if n < 11361 then
                    if n = 11359 then [11311] else [n]
                    else
                    if n < 11365 then
                      if n = 11361 then [11360] else [n]
                      else
                      if n = 11365 then [570] else [n]
                  else
                  if n < 11368 then
                    if n = 11366 then [574] else [n]
                    else
                    if n < 11370 then
                      if n = 11368 then [11367] else [n]
                      else
                      if n = 11370 then [11369] else [n]
              else
              if n < 11399 then
                if n < 11393 then
                  if n < 11379 then
                    if n = 11372 then [11371] else [n]
                    else
                    if n < 11382 then
                      if n = 11379 then [11378] else [n]
                      else
                      if n = 11382 then [11381] else [n]
                  else
                  if n < 11395 then
                    if n = 11393 then [11392] else [n]
                    else
                    if n < 11397 then
                      if n = 11395 then [11394] else [n]
                      else
                      if n = 11397 then [11396] else [n]
                else
                if n < 11405 then
                  if n < 11401 then
                    if n = 11399 then [11398] else [n]
                    else
                    if n < 11403 then
                      if n = 11401 then [11400] else [n]
                      else
                      if n = 11403 then [11402] else [n]
                  else
                  if n < 11407 then
                    if n = 11405 then [11404] else [n]
                    else
                    if n < 11409 then
                      if n = 11407 then [11406] else [n]
                      else
                      if n = 11409 then [11408] else [n]
      else
      if n < 42583 then
        if n < 11523 then
          if n < 11457 then
            if n < 11433 then
              if n < 11421 then
                if n < 11415 then
                  if n < 11413 then
                    if n = 11411 then [11410] else [n]
                    else
                    if n = 11413 then [11412] else [n]
                  else
                  if n < 11417 then
                    if n = 11415 then [11414] else [n]
                    else
                    if n < 11419 then
                      if n = 11417 then [11416] else [n]
                      else
                      if n = 11419 then [11418] else [n]
                else
                if n < 11427 then
                  if n < 11423 then
                    if n = 11421 then [11420] else [n]
                    else
                    if n < 11425 then
                      if n = 11423 then [11422] else [n]
                      else
                      if n = 11425 then [11424] else [n]
                  else
                  if n < 11429 then
                    if n = 11427 then [11426] else [n]
                    else
                    if n < 11431 then
                      if n = 11429 then [11428] else [n]
                      else
                      if n = 11431 then [11430] else [n]
              else
              if n < 11445 then
                if n < 11439 then
                  if n < 11435 then
                    if n = 11433 then [11432] else [n]
                    else
                    if n < 11437 then
                      if n = 11435 then [11434] else [n]
                      else
                      if n = 11437 then [11436] else [n]
                  else
                  if n < 11441 then
                    if n = 11439 then [11438] else [n]
                    else
                    if n < 11443 then
                      if n = 11441 then [11440] else [n]
                      else
                      if n = 11443 then [11442] else [n]
                else
                if n < 11451 then
                  if n < 11447 then
                    if n = 11445 then [11444] else [n]
                    else
                    if n < 11449 then
                      if n = 11447 then [11446] else [n]
                      else
                      if n = 11449 then [11448] else [n]
                  else
                  if n < 11453 then
                    if n = 11451 then [11450] else [n]
                    else
                    if n < 11455 then
                      if n = 11453 then [11452] else [n]
                      else
                      if n = 11455 then [11454] else [n]
            else
            if n < 11481 then
              if n < 11469 then
                if n < 11463 then
                  if n < 11459 then
                    if n = 11457 then [11456] else [n]
                    else
                    if n < 11461 then
                      if n = 11459 then [11458] else [n]
                      else
                      if n = 11461 then [11460] else [n]
                  else
                  if n < 11465 then
                    if n = 11463 then [11462] else [n]
                    else
                    if n < 11467 then
                      if n = 11465 then [11464] else [n]
                      else
                      if n = 11467 then [11466] else [n]
                else
                if n < 11475 then
                  if n < 11471 then
                    if n = 11469 then [11468] else [n]
                    else
                    if n < 11473 then
                      if n = 11471 then [11470] else [n]
                      else
                      if n = 11473 then [11472] else [n]
                  else
                  if n < 11477 then
                    if n = 11475 then [11474] else [n]
                    else
                    if n < 11479 then
                      if n = 11477 then [11476] else [n]
                      else
                      if n = 11479 then [11478] else [n]
              else
              if n < 11500 then
                if n < 11487 then
                  if n < 11483 then
                    if n = 11481 then [11480] else [n]
                    else
                    if n < 11485 then
                      if n = 11483 then [11482] else [n]
                      else
                      if n = 11485 then [11484] else [n]
                  else
                  if n < 11489 then
                    if n = 11487 then [11486] else [n]
                    else
                    if n < 11491 then
                      if n = 11489 then [11488] else [n]
                      else
                      if n = 11491 then [11490] else [n]
                else
                if n < 11520 then
                  if n < 11502 then
                    if n = 11500 then [11499] else [n]
                    else
                    if n < 11507 then
                      if n = 11502 then [11501] else [n]
                      else
                      if n = 11507 then [11506] else [n]
                  else
                  if n < 11521 then
                    if n = 11520 then [4256] else [n]
                    else
                    if n < 11522 then
                      if n = 11521 then [4257] else [n]
                      else
                      if n = 11522 then [4258] else [n]
          else
          if n < 11547 then
            if n < 11535 then
              if n < 11529 then
                if n < 11526 then
                  if n < 11524 then
                    if n = 11523 then [4259] else [n]
                    else
                    if n < 11525 then
                      if n = 11524 then [4260] else [n]
                      else
                      if n = 11525 then [4261] else [n]
                  else
                  if n < 11527 then
                    if n = 11526 then [4262] else [n]
                    else
                    if n < 11528 then
                      if n = 11527 then [4263] else [n]
                      else
                      if n = 11528 then [4264] else [n]
                else
                if n < 11532 then
                  if n < 11530 then
                    if n = 11529 then [4265] else [n]
                    else
                    if n < 11531 then
                      if n = 11530 then [4266] else [n]
                      else
                      if n = 11531 then [4267] else [n]
                  else
                  if n < 11533 then
                    if n = 11532 then [4268] else [n]
                    else
                    if n < 11534 then
                      if n = 11533 then [4269] else [n]
                      else
                      if n = 11534 then [4270] else [n]
              else
              if n < 11541 then
                if n < 11538 then
                  if n < 11536 then
                    if n = 11535 then [4271] else [n]
                    else
                    if n < 11537 then
                      if n = 11536 then [4272] else [n]
                      else
                      if n = 11537 then [4273] else [n]
                  else
                  if n < 11539 then
                    if n = 11538 then [4274] else [n]
                    else
                    if n < 11540 then
                      if n = 11539 then [4275] else [n]
                      else
                      if n = 11540 then [4276] else [n]
                else
                if n < 11544 then
                  if n < 11542 then
                    if n = 11541 then [4277] else [n]
                    else
                    if n < 11543 then
                      if n = 11542 then [4278] else [n]
                      else
                      if n = 11543 then [4279] else [n]
                  else
                  if n < 11545 then
                    if n = 11544 then [4280] else [n]
                    else
                    if n < 11546 then
                      if n = 11545 then [4281] else [n]
                      else
                      if n = 11546 then [4282] else [n]
            else
            if n < 11565 then
              if n < 11553 then
                if n < 11550 then
                  if n < 11548 then
                    if n = 11547 then [4283] else [n]
                    else
                    if n < 11549 then
                      if n = 11548 then [4284] else [n]
                      else
                      if n = 11549 then [4285] else [n]
                  else
                  if n < 11551 then
                    if n = 11550 then [4286] else [n]
                    else
                    if n < 11552 then
                      if n = 11551 then [4287] else [n]
                      else
                      if n = 11552 then [4288] else [n]
                else
                if n < 11556 then
                  if n < 11554 then
                    if n = 11553 then [4289] else [n]
                    else
                    if n < 11555 then
                      if n = 11554 then [4290] else [n]
                      else
                      if n = 11555 then [4291] else [n]
                  else
                  if n < 11557 then
                    if n = 11556 then [4292] else [n]
                    else
                    if n < 11559 then
                      if n = 11557 then [4293] else [n]
                      else
                      if n = 11559 then [4295] else [n]
              else
              if n < 42571 then
                if n < 42565 then
                  if n < 42561 then
                    if n = 11565 then [4301] else [n]
                    else
                    if n < 42563 then
                      if n = 42561 then [42560] else [n]
                      else
                      if n = 42563 then [42562] else [n]
                  else
                  if n < 42567 then
                    if n = 42565 then [42564] else [n]
                    else
                    if n < 42569 then
                      if n = 42567 then [42566] else [n]
                      else
                      if n = 42569 then [42568] else [n]
                else
                if n < 42577 then
                  if n < 42573 then
                    if n = 42571 then [42570] else [n]
                    else
                    if n < 42575 then
                      if n = 42573 then [42572] else [n]
                      else
                      if n = 42575 then [42574] else [n]
                  else
                  if n < 42579 then
                    if n = 42577 then [42576] else [n]
                    else
                    if n < 42581 then
                      if n = 42579 then [42578] else [n]
                      else
                      if n = 42581 then [42580] else [n]
        else
        if n < 42833 then
          if n < 42649 then
            if n < 42625 then
              if n < 42595 then
                if n < 42589 then
                  if n < 42585 then
                    if n = 42583 then [42582] else [n]
                    else
                    if n < 42587 then
                      if n = 42585 then [42584] else [n]
                      else
                      if n = 42587 then [42586] else [n]
                  else
                  if n < 42591 then
                    if n = 42589 then [42588] else [n]
                    else
                    if n < 42593 then
                      if n = 42591 then [42590] else [n]
                      else
                      if n = 42593 then [42592] else [n]
                else
                if n < 42601 then
                  if n < 42597 then
                    if n = 42595 then [42594] else [n]
                    else
                    if n < 42599 then
                      if n = 42597 then [42596] else [n]
                      else
                      if n = 42599 then [42598] else [n]
                  else
                  if n < 42603 then
                    if n = 42601 then [42600] else [n]
                    else
                    if n < 42605 then
                      if n = 42603 then [42602] else [n]
                      else
                      if n = 42605 then [42604] else [n]
              else
              if n < 42637 then
                if n < 42631 then
                  if n < 42627 then
                    if n = 42625 then [42624] else [n]
                    else
                    if n < 42629 then
                      if n = 42627 then [42626] else [n]
                      else
                      if n = 42629 then [42628] else [n]
                  else
                  if n < 42633 then
                    if n = 42631 then [42630] else [n]
                    else
                    if n < 42635 then
                      if n = 42633 then [42632] else [n]
                      else
                      if n = 42635 then [42634] else [n]
                else
                if n < 42643 then
                  if n < 42639 then
                    if n = 42637 then [42636] else [n]
                    else
                    if n < 42641 then
                      if n = 42639 then [42638] else [n]
                      else
                      if n = 42641 then [42640] else [n]
                  else
                  if n < 42645 then
                    if n = 42643 then [42642] else [n]
                    else
                    if n < 42647 then
                      if n = 42645 then [42644] else [n]
                      else
                      if n = 42647 then [42646] else [n]
            else
            if n < 42809 then
              if n < 42795 then
                if n < 42789 then
                  if n < 42651 then
                    if n = 42649 then [42648] else [n]
                    else
                    if n < 42787 then
                      if n = 42651 then [42650] else [n]
                      else
                      if n = 42787 then [42786] else [n]
                  else
                  if n < 42791 then
                    if n = 42789 then [42788] else [n]
                    else
                    if n < 42793 then
                      if n = 42791 then [42790] else [n]
                      else
                      if n = 42793 then [42792] else [n]
                else
                if n < 42803 then
                  if n < 42797 then
                    if n = 42795 then [42794] else [n]
                    else
                    if n < 42799 then
                      if n = 42797 then [42796] else [n]
                      else
                      if n = 42799 then [42798] else [n]
                  else
                  if n < 42805 then
                    if n = 42803 then [42802] else [n]
                    else
                    if n < 42807 then
                      if n = 42805 then [42804] else [n]
                      else
                      if n = 42807 then [42806] else [n]
              else
              if n < 42821 then
                if n < 42815 then
                  if n < 42811 then
                    if n = 42809 then [42808] else [n]
                    else
                    if n < 42813 then
                      if n = 42811 then [42810] else [n]
                      else
                      if n = 42813 then [42812] else [n]
                  else
                  if n < 42817 then
                    if n = 42815 then [42814] else [n]
                    else
                    if n < 42819 then
                      if n = 42817 then [42816] else [n]
                      else
                      if n = 42819 then [42818] else [n]
                else
                if n < 42827 then
                  if n < 42823 then
                    if n = 42821 then [42820] else [n]
                    else
                    if n < 42825 then
                      if n = 42823 then [42822] else [n]
                      else
                      if n = 42825 then [42824] else [n]
                  else
                  if n < 42829 then
                    if n = 42827 then [42826] else [n]
                    else
                    if n < 42831 then
                      if n = 42829 then [42828] else [n]
                      else
                      if n = 42831 then [42830] else [n]
          else
          if n < 42897 then
            if n < 42857 then
              if n < 42845 then
                if n < 42839 then
                  if n < 42835 then
                    if n = 42833 then [42832] else [n]
                    else
                    if n < 42837 then
                      if n = 42835 then [42834] else [n]
                      else
                      if n = 42837 then [42836] else [n]
                  else
                  if n < 42841 then
                    if n = 42839 then [42838] else [n]
                    else
                    if n < 42843 then
                      if n = 42841 then [42840] else [n]
                      else
                      if n = 42843 then [42842] else [n]
                else
                if n < 42851 then
                  if n < 42847 then
                    if n = 42845 then [42844] else [n]
                    else
                    if n < 42849 then
                      if n = 42847 then [42846] else [n]
                      else
                      if n = 42849 then [42848] else [n]
                  else
                  if n < 42853 then
                    if n = 42851 then [42850] else [n]
                    else
                    if n < 42855 then
                      if n = 42853 then [42852] else [n]
                      else
                      if n = 42855 then [42854] else [n]
              else
              if n < 42879 then
                if n < 42863 then
                  if n < 42859 then
                    if n = 42857 then [42856] else [n]
                    else
                    if n < 42861 then
                      if n = 42859 then [42858] else [n]
                      else
                      if n = 42861 then [42860] else [n]
                  else
                  if n < 42874 then
                    if n = 42863 then [42862] else [n]
                    else
                    if n < 42876 then
                      if n = 42874 then [42873] else [n]
                      else
                      if n = 42876 then [42875] else [n]
                else
                if n < 42885 then
                  if n < 42881 then
                    if n = 42879 then [42878] else [n]
                    else
                    if n < 42883 then
                      if n = 42881 then [42880] else [n]
                      else
                      if n = 42883 then [42882] else [n]
                  else
                  if n < 42887 then
                    if n = 42885 then [42884] else [n]
                    else
                    if n < 42892 then
                      if n = 42887 then [42886] else [n]
                      else
                      if n = 42892 then [42891] else [n]
            else
            if n < 42921 then
              if n < 42909 then
                if n < 42903 then
                  if n < 42899 then
                    if n = 42897 then [42896] else [n]
                    else
                    if n < 42900 then
                      if n = 42899 then [42898] else [n]
                      else
                      if n = 42900 then [42948] else [n]
                  else
                  if n < 42905 then
                    if n = 42903 then [42902] else [n]
                    else
                    if n < 42907 then
                      if n = 42905 then [42904] else [n]
                      else
                      if n = 42907 then [42906] else [n]
                else
                if n < 42915 then
                  if n < 42911 then
                    if n = 42909 then [42908] else [n]
                    else
                    if n < 42913 then
                      if n = 42911 then [42910] else [n]
                      else
                      if n = 42913 then [42912] else [n]
                  else
                  if n < 42917 then
                    if n = 42915 then [42914] else [n]
                    else
                    if n < 42919 then
                      if n = 42917 then [42916] else [n]
                      else
                      if n = 42919 then [42918] else [n]
              else
              if n < 42943 then
                if n < 42937 then
                  if n < 42933 then
                    if n = 42921 then [42920] else [n]
                    else
                    if n < 42935 then
                      if n = 42933 then [42932] else [n]
                      else
                      if n = 42935 then [42934] else [n]
                  else
                  if n < 42939 then
                    if n = 42937 then [42936] else [n]
                    else
                    if n < 42941 then
                      if n = 42939 then [42938] else [n]
                      else
                      if n = 42941 then [42940] else [n]
                else
                if n < 42952 then
                  if n < 42945 then
                    if n = 42943 then [42942] else [n]
                    else
                    if n < 42947 then
                      if n = 42945 then [42944] else [n]
                      else
                      if n = 42947 then [42946] else [n]
                  else
                  if n < 42954 then
                    if n = 42952 then [42951] else [n]
                    else
                    if n < 42961 then
                      if n = 42954 then [42953] else [n]
                      else
                      if n = 42961 then [42960] else [n]
    else
    if n < 66805 then
      if n < 64279 then
        if n < 43931 then
          if n < 43907 then
            if n < 43895 then
              if n < 43889 then
                if n < 42998 then
                  if n < 42969 then
                    if n = 42967 then [42966] else [n]
                    else
                    if n = 42969 then [42968] else [n]
                  else
                  if n < 43859 then
                    if n = 42998 then [42997] else [n]
                    else
                    if n < 43888 then
                      if n = 43859 then [42931] else [n]
                      else
                      if n = 43888 then [5024] else [n]
                else
                if n < 43892 then
                  if n < 43890 then
                    if n = 43889 then [5025] else [n]
                    else
                    if n < 43891 then
                      if n = 43890 then [5026] else [n]
                      else
                      if n = 43891 then [5027] else [n]
                  else
                  if n < 43893 then
                    if n = 43892 then [5028] else [n]
                    else
                    if n < 43894 then
                      if n = 43893 then [5029] else [n]
                      else
                      if n = 43894 then [5030] else [n]
              else
              if n < 43901 then
                if n < 43898 then
                  if n < 43896 then
                    if n = 43895 then [5031] else [n]
                    else
                    if n < 43897 then
                      if n = 43896 then [5032] else [n]
                      else
                      if n = 43897 then [5033] else [n]
                  else
                  if n < 43899 then
                    if n = 43898 then [5034] else [n]
                    else
                    if n < 43900 then
                      if n = 43899 then [5035] else [n]
                      else
                      if n = 43900 then [5036] else [n]
                else
                if n < 43904 then
                  if n < 43902 then
                    if n = 43901 then [5037] else [n]
                    else
                    if n < 43903 then
                      if n = 43902 then [5038] else [n]
                      else
                      if n = 43903 then [5039] else [n]
                  else
                  if n < 43905 then
                    if n = 43904 then [5040] else [n]
                    else
                    if n < 43906 then
                      if n = 43905 then [5041] else [n]
                      else
                      if n = 43906 then [5042] else [n]
            else
            if n < 43919 then
              if n < 43913 then
                if n < 43910 then
                  if n < 43908 then
                    if n = 43907 then [5043] else [n]
                    else
                    if n < 43909 then
                      if n = 43908 then [5044] else [n]
                      else
                      if n = 43909 then [5045] else [n]
                  else
                  if n < 43911 then
                    if n = 43910 then [5046] else [n]
                    else
                    if n < 43912 then
                      if n = 43911 then [5047] else [n]
                      else
                      if n = 43912 then [5048] else [n]
                else
                if n < 43916 then
                  if n < 43914 then
                    if n = 43913 then [5049] else [n]
                    else
                    if n < 43915 then
                      if n = 43914 then [5050] else [n]
                      else
                      if n = 43915 then [5051] else [n]
                  else
                  if n < 43917 then
                    if n = 43916 then [5052] else [n]
                    else
                    if n < 43918 then
                      if n = 43917 then [5053] else [n]
                      else
                      if n = 43918 then [5054] else [n]
              else
              if n < 43925 then
                if n < 43922 then
                  if n < 43920 then
                    if n = 43919 then [5055] else [n]
                    else
                    if n < 43921 then
                      if n = 43920 then [5056] else [n]
                      else
                      if n = 43921 then [5057] else [n]
                  else
                  if n < 43923 then
                    if n = 43922 then [5058] else [n]
                    else
                    if n < 43924 then
                      if n = 43923 then [5059] else [n]
                      else
                      if n = 43924 then [5060] else [n]
                else
                if n < 43928 then
                  if n < 43926 then
                    if n = 43925 then [5061] else [n]
                    else
                    if n < 43927 then
                      if n = 43926 then [5062] else [n]
                      else
                      if n = 43927 then [5063] else [n]
                  else
                  if n < 43929 then
                    if n = 43928 then [5064] else [n]
                    else
                    if n < 43930 then
                      if n = 43929 then [5065] else [n]
                      else
                      if n = 43930 then [5066] else [n]
          else
          if n < 43955 then
            if n < 43943 then
              if n < 43937 then
                if n < 43934 then
                  if n < 43932 then
                    if n = 43931 then [5067] else [n]
                    else
                    if n < 43933 then
                      if n = 43932 then [5068] else [n]
                      else
                      if n = 43933 then [5069] else [n]
                  else
                  if n < 43935 then
                    if n = 43934 then [5070] else [n]
                    else
                    if n < 43936 then
                      if n = 43935 then [5071] else [n]
                      else
                      if n = 43936 then [5072] else [n]
                else
                if n < 43940 then
                  if n < 43938 then
                    if n = 43937 then [5073] else [n]
                    else
                    if n < 43939 then
                      if n = 43938 then [5074] else [n]
                      else
                      if n = 43939 then [5075] else [n]
                  else
                  if n < 43941 then
                    if n = 43940 then [5076] else [n]
                    else
                    if n < 43942 then
                      if n = 43941 then [5077] else [n]
                      else
                      if n = 43942 then [5078] else [n]
              else
              if n < 43949 then
                if n < 43946 then
                  if n < 43944 then
                    if n = 43943 then [5079] else [n]
                    else
                    if n < 43945 then
                      if n = 43944 then [5080] else [n]
                      else
                      if n = 43945 then [5081] else [n]
                  else
                  if n < 43947 then
                    if n = 43946 then [5082] else [n]
                    else
                    if n < 43948 then
                      if n = 43947 then [5083] else [n]
                      else
                      if n = 43948 then [5084] else [n]
                else
                if n < 43952 then
                  if n < 43950 then
                    if n = 43949 then [5085] else [n]
                    else
                    if n < 43951 then
                      if n = 43950 then [5086] else [n]
                      else
                      if n = 43951 then [5087] else [n]
                  else
                  if n < 43953 then
                    if n = 43952 then [5088] else [n]
                    else
                    if n < 43954 then
                      if n = 43953 then [5089] else [n]
                      else
                      if n = 43954 then [5090] else [n]
            else
            if n < 43967 then
              if n < 43961 then
                if n < 43958 then
                  if n < 43956 then
                    if n = 43955 then [5091] else [n]
                    else
                    if n < 43957 then
                      if n = 43956 then [5092] else [n]
                      else
                      if n = 43957 then [5093] else [n]
                  else
                  if n < 43959 then
                    if n = 43958 then [5094] else [n]
                    else
                    if n < 43960 then
                      if n = 43959 then [5095] else [n]
                      else
                      if n = 43960 then [5096] else [n]
                else
                if n < 43964 then
                  if n < 43962 then
                    if n = 43961 then [5097] else [n]
                    else
                    if n < 43963 then
                      if n = 43962 then [5098] else [n]
                      else
                      if n = 43963 then [5099] else [n]
                  else
                  if n < 43965 then
                    if n = 43964 then [5100] else [n]
                    else
                    if n < 43966 then
                      if n = 43965 then [5101] else [n]
                      else
                      if n = 43966 then [5102] else [n]
              else
              if n < 64261 then
                if n < 64258 then
                  if n < 64256 then
                    if n = 43967 then [5103] else [n]
                    else
                    if n < 64257 then
                      if n = 64256 then [70, 70] else [n]
                      else
                      if n = 64257 then [70, 73] else [n]
                  else
                  if n < 64259 then
                    if n = 64258 then [70, 76] else [n]
                    else
                    if n < 64260 then
                      if n = 64259 then [70, 70, 73] else [n]
                      else
                      if n = 64260 then [70, 70, 76] else [n]
                else
                if n < 64276 then
                  if n < 64262 then
                    if n = 64261 then [83, 84] else [n]
                    else
                    if n < 64275 then
                      if n = 64262 then [83, 84] else [n]
                      else
                      if n = 64275 then [1348, 1350] else [n]
                  else
                  if n < 64277 then
                    if n = 64276 then [1348, 1333] else [n]
                    else
                    if n < 64278 then
                      if n = 64277 then [1348, 1339] else [n]
                      else
                      if n = 64278 then [1358, 1350] else [n]
        else
        if n < 66621 then
          if n < 65368 then
            if n < 65356 then
              if n < 65350 then
                if n < 65347 then
                  if n < 65345 then
                    if n = 64279 then [1348, 1341] else [n]
                    else
                    if n < 65346 then
                      if n = 65345 then [65313] else [n]
                      else
                      if n = 65346 then [65314] else [n]
                  else
                  if n < 65348 then
                    if n = 65347 then [65315] else [n]
                    else
                    if n < 65349 then
                      if n = 65348 then [65316] else [n]
                      else
                      if n = 65349 then [65317] else [n]
                else
                if n < 65353 then
                  if n < 65351 then
                    if n = 65350 then [65318] else [n]
                    else
                    if n < 65352 then
                      if n = 65351 then [65319] else [n]
                      else
                      if n = 65352 then [65320] else [n]
                  else
                  if n < 65354 then
                    if n = 65353 then [65321] else [n]
                    else
                    if n < 65355 then
                      if n = 65354 then [65322] else [n]
                      else
                      if n = 65355 then [65323] else [n]
              else
              if n < 65362 then
                if n < 65359 then
                  if n < 65357 then
                    if n = 65356 then [65324] else [n]
                    else
                    if n < 65358 then
                      if n = 65357 then [65325] else [n]
                      else
                      if n = 65358 then [65326] else [n]
                  else
                  if n < 65360 then
                    if n = 65359 then [65327] else [n]
                    else
                    if n < 65361 then
                      if n = 65360 then [65328] else [n]
                      else
                      if n = 65361 then [65329] else [n]
                else
                if n < 65365 then
                  if n < 65363 then
                    if n = 65362 then [65330] else [n]
                    else
                    if n < 65364 then
                      if n = 65363 then [65331] else [n]
                      else
                      if n = 65364 then [65332] else [n]
                  else
                  if n < 65366 then
                    if n = 65365 then [65333] else [n]
                    else
                    if n < 65367 then
                      if n = 65366 then [65334] else [n]
                      else
                      if n = 65367 then [65335] else [n]
            else
            if n < 66609 then
              if n < 66603 then
                if n < 66600 then
                  if n < 65369 then
                    if n = 65368 then [65336] else [n]
                    else
                    if n < 65370 then
                      if n = 65369 then [65337] else [n]
                      else
                      if n = 65370 then [65338] else [n]
                  else
                  if n < 66601 then
                    if n = 66600 then [66560] else [n]
                    else
                    if n < 66602 then
                      if n = 66601 then [66561] else [n]
                      else
                      if n = 66602 then [66562] else [n]
                else
                if n < 66606 then
                  if n < 66604 then
                    if n = 66603 then [66563] else [n]
                    else
                    if n < 66605 then
                      if n = 66604 then [66564] else [n]
                      else
                      if n = 66605 then [66565] else [n]
                  else
                  if n < 66607 then
                    if n = 66606 then [66566] else [n]
                    else
                    if n < 66608 then
                      if n = 66607 then [66567] else [n]
                      else
                      if n = 66608 then [66568] else [n]
              else
              if n < 66615 then
                if n < 66612 then
                  if n < 66610 then
                    if n = 66609 then [66569] else [n]
                    else
                    if n < 66611 then
                      if n = 66610 then [66570] else [n]
                      else
                      if n = 66611 then [66571] else [n]
                  else
                  if n < 66613 then
                    if n = 66612 then [66572] else [n]
                    else
                    if n < 66614 then
                      if n = 66613 then [66573] else [n]
                      else
                      if n = 66614 then [66574] else [n]
                else
                if n < 66618 then
                  if n < 66616 then
                    if n = 66615 then [66575] else [n]
                    else
                    if n < 66617 then
                      if n = 66616 then [66576] else [n]
                      else
                      if n = 66617 then [66577] else [n]
                  else
                  if n < 66619 then
                    if n = 66618 then [66578] else [n]
                    else
                    if n < 66620 then
                      if n = 66619 then [66579] else [n]
                      else
                      if n = 66620 then [66580] else [n]
          else
          if n < 66781 then
            if n < 66633 then
              if n < 66627 then
                if n < 66624 then
                  if n < 66622 then
                    if n = 66621 then [66581] else [n]
                    else
                    if n < 66623 then
                      if n = 66622 then [66582] else [n]
                      else
                      if n = 66623 then [66583] else [n]
                  else
                  if n < 66625 then
                    if n = 66624 then [66584] else [n]
                    else
                    if n < 66626 then
                      if n = 66625 then [66585] else [n]
                      else
                      if n = 66626 then [66586] else [n]
                else
                if n < 66630 then
                  if n < 66628 then
                    if n = 66627 then [66587] else [n]
                    else
                    if n < 66629 then
                      if n = 66628 then [66588] else [n]
                      else
                      if n = 66629 then [66589] else [n]
                  else
                  if n < 66631 then
                    if n = 66630 then [66590] else [n]
                    else
                    if n < 66632 then
                      if n = 66631 then [66591] else [n]
                      else
                      if n = 66632 then [66592] else [n]
              else
              if n < 66639 then
                if n < 66636 then
                  if n < 66634 then
                    if n = 66633 then [66593] else [n]
                    else
                    if n < 66635 then
                      if n = 66634 then [66594] else [n]
                      else
                      if n = 66635 then [66595] else [n]
                  else
                  if n < 66637 then
                    if n = 66636 then [66596] else [n]
                    else
                    if n < 66638 then
                      if n = 66637 then [66597] else [n]
                      else
                      if n = 66638 then [66598] else [n]
                else
                if n < 66778 then
                  if n < 66776 then
                    if n = 66639 then [66599] else [n]
                    else
                    if n < 66777 then
                      if n = 66776 then [66736] else [n]
                      else
                      if n = 66777 then [66737] else [n]
                  else
                  if n < 66779 then
                    if n = 66778 then [66738] else [n]
                    else
                    if n < 66780 then
                      if n = 66779 then [66739] else [n]
                      else
                      if n = 66780 then [66740] else [n]
            else
            if n < 66793 then
              if n < 66787 then
                if n < 66784 then
                  if n < 66782 then
                    if n = 66781 then [66741] else [n]
                    else
                    if n < 66783 then
                      if n = 66782 then [66742] else [n]
                      else
                      if n = 66783 then [66743] else [n]
                  else
                  if n < 66785 then
                    if n = 66784 then [66744] else [n]
                    else
                    if n < 66786 then
                      if n = 66785 then [66745] else [n]
                      else
                      if n = 66786 then [66746] else [n]
                else
                if n < 66790 then
                  if n < 66788 then
                    if n = 66787 then [66747] else [n]
                    else
                    if n < 66789 then
                      if n = 66788 then [66748] else [n]
                      else
                      if n = 66789 then [66749] else [n]
                  else
                  if n < 66791 then
                    if n = 66790 then [66750] else [n]
                    else
                    if n < 66792 then
                      if n = 66791 then [66751] else [n]
                      else
                      if n = 66792 then [66752] else [n]
              else
              if n < 66799 then
                if n < 66796 then
                  if n < 66794 then
                    if n = 66793 then [66753] else [n]
                    else
                    if n < 66795 then
                      if n = 66794 then [66754] else [n]
                      else
                      if n = 66795 then [66755] else [n]
                  else
                  if n < 66797 then
                    if n = 66796 then [66756] else [n]
                    else
                    if n < 66798 then
                      if n = 66797 then [66757] else [n]
                      else
                      if n = 66798 then [66758] else [n]
                else
                if n < 66802 then
                  if n < 66800 then
                    if n = 66799 then [66759] else [n]
                    else
                    if n < 66801 then
                      if n = 66800 then [66760] else [n]
                      else
                      if n = 66801 then [66761] else [n]
                  else
                  if n < 66803 then
                    if n = 66802 then [66762] else [n]
                    else
                    if n < 66804 then
                      if n = 66803 then [66763] else [n]
                      else
                      if n = 66804 then [66764] else [n]
      else
      if n < 71874 then
        if n < 68805 then
          if n < 66984 then
            if n < 66971 then
              if n < 66810 then
                if n < 66807 then
                  if n < 66806 then
                    if n = 66805 then [66765] else [n]
                    else
                    if n = 66806 then [66766] else [n]
                  else
                  if n < 66808 then
                    if n = 66807 then [66767] else [n]
                    else
                    if n < 66809 then
                      if n = 66808 then [66768] else [n]
                      else
                      if n = 66809 then [66769] else [n]
                else
                if n < 66968 then
                  if n < 66811 then
                    if n = 66810 then [66770] else [n]
                    else
                    if n < 66967 then
                      if n = 66811 then [66771] else [n]
                      else
                      if n = 66967 then [66928] else [n]
                  else
                  if n < 66969 then
                    if n = 66968 then [66929] else [n]
                    else
                    if n < 66970 then
                      if n = 66969 then [66930] else [n]
                      else
                      if n = 66970 then [66931] else [n]
              else
              if n < 66977 then
                if n < 66974 then
                  if n < 66972 then
                    if n = 66971 then [66932] else [n]
                    else
                    if n < 66973 then
                      if n = 66972 then [66933] else [n]
                      else
                      if n = 66973 then [66934] else [n]
                  else
                  if n < 66975 then
                    if n = 66974 then [66935] else [n]
                    else
                    if n < 66976 then
                      if n = 66975 then [66936] else [n]
                      else
                      if n = 66976 then [66937] else [n]
                else
                if n < 66981 then
                  if n < 66979 then
                    if n = 66977 then [66938] else [n]
                    else
                    if n < 66980 then
                      if n = 66979 then [66940] else [n]
                      else
                      if n = 66980 then [66941] else [n]
                  else
                  if n < 66982 then
                    if n = 66981 then [66942] else [n]
                    else
                    if n < 66983 then
                      if n = 66982 then [66943] else [n]
                      else
                      if n = 66983 then [66944] else [n]
            else
            if n < 66997 then
              if n < 66990 then
                if n < 66987 then
                  if n < 66985 then
                    if n = 66984 then [66945] else [n]
                    else
                    if n < 66986 then
                      if n = 66985 then [66946] else [n]
                      else
                      if n = 66986 then [66947] else [n]
                  else
                  if n < 66988 then
                    if n = 66987 then [66948] else [n]
                    else
                    if n < 66989 then
                      if n = 66988 then [66949] else [n]
                      else
                      if n = 66989 then [66950] else [n]
                else
                if n < 66993 then
                  if n < 66991 then
                    if n = 66990 then [66951] else [n]
                    else
                    if n < 66992 then
                      if n = 66991 then [66952] else [n]
                      else
                      if n = 66992 then [66953] else [n]
                  else
                  if n < 66995 then
                    if n = 66993 then [66954] else [n]
                    else
                    if n < 66996 then
                      if n = 66995 then [66956] else [n]
                      else
                      if n = 66996 then [66957] else [n]
              else
              if n < 67004 then
                if n < 67000 then
                  if n < 66998 then
                    if n = 66997 then [66958] else [n]
                    else
                    if n < 66999 then
                      if n = 66998 then [66959] else [n]
                      else
                      if n = 66999 then [66960] else [n]
                  else
                  if n < 67001 then
                    if n = 67000 then [66961] else [n]
                    else
                    if n < 67003 then
                      if n = 67001 then [66962] else [n]
                      else
                      if n = 67003 then [66964] else [n]
                else
                if n < 68802 then
                  if n < 68800 then
                    if n = 67004 then [66965] else [n]
                    else
                    if n < 68801 then
                      if n = 68800 then [68736] else [n]
                      else
                      if n = 68801 then [68737] else [n]
                  else
                  if n < 68803 then
                    if n = 68802 then [68738] else [n]
                    else
                    if n < 68804 then
                      if n = 68803 then [68739] else [n]
                      else
                      if n = 68804 then [68740] else [n]
          else
          if n < 68829 then
            if n < 68817 then
              if n < 68811 then
                if n < 68808 then
                  if n < 68806 then
                    if n = 68805 then [68741] else [n]
                    else
                    if n < 68807 then
                      if n = 68806 then [68742] else [n]
                      else
                      if n = 68807 then [68743] else [n]
                  else
                  if n < 68809 then
                    if n = 68808 then [68744] else [n]
                    else
                    if n < 68810 then
                      if n = 68809 then [68745] else [n]
                      else
                      if n = 68810 then [68746] else [n]
                else
                if n < 68814 then
                  if n < 68812 then
                    if n = 68811 then [68747] else [n]
                    else
                    if n < 68813 then
                      if n = 68812 then [68748] else [n]
                      else
                      if n = 68813 then [68749] else [n]
                  else
                  if n < 68815 then
                    if n = 68814 then [68750] else [n]
                    else
                    if n < 68816 then
                      if n = 68815 then [68751] else [n]
                      else
                      if n = 68816 then [68752] else [n]
              else
              if n < 68823 then
                if n < 68820 then
                  if n < 68818 then
                    if n = 68817 then [68753] else [n]
                    else
                    if n < 68819 then
                      if n = 68818 then [68754] else [n]
                      else
                      if n = 68819 then [68755] else [n]
                  else
                  if n < 68821 then
                    if n = 68820 then [68756] else [n]
                    else
                    if n < 68822 then
                      if n = 68821 then [68757] else [n]
                      else
                      if n = 68822 then [68758] else [n]
                else
                if n < 68826 then
                  if n < 68824 then
                    if n = 68823 then [68759] else [n]
                    else
                    if n < 68825 then
                      if n = 68824 then [68760] else [n]
                      else
                      if n = 68825 then [68761] else [n]
                  else
                  if n < 68827 then
                    if n = 68826 then [68762] else [n]
                    else
                    if n < 68828 then
                      if n = 68827 then [68763] else [n]
                      else
                      if n = 68828 then [68764] else [n]
            else
            if n < 68841 then
              if n < 68835 then
                if n < 68832 then
                  if n < 68830 then
                    if n = 68829 then [68765] else [n]
                    else
                    if n < 68831 then
                      if n = 68830 then [68766] else [n]
                      else
                      if n = 68831 then [68767] else [n]
                  else
                  if n < 68833 then
                    if n = 68832 then [68768] else [n]
                    else
                    if n < 68834 then
                      if n = 68833 then [68769] else [n]
                      else
                      if n = 68834 then [68770] else [n]
                else
                if n < 68838 then
                  if n < 68836 then
                    if n = 68835 then [68771] else [n]
                    else
                    if n < 68837 then
                      if n = 68836 then [68772] else [n]
                      else
                      if n = 68837 then [68773] else [n]
                  else
                  if n < 68839 then
                    if n = 68838 then [68774] else [n]
                    else
                    if n < 68840 then
                      if n = 68839 then [68775] else [n]
                      else
                      if n = 68840 then [68776] else [n]
              else
              if n < 68847 then
                if n < 68844 then
                  if n < 68842 then
                    if n = 68841 then [68777] else [n]
                    else
                    if n < 68843 then
                      if n = 68842 then [68778] else [n]
                      else
                      if n = 68843 then [68779] else [n]
                  else
                  if n < 68845 then
                    if n = 68844 then [68780] else [n]
                    else
                    if n < 68846 then
                      if n = 68845 then [68781] else [n]
                      else
                      if n = 68846 then [68782] else [n]
                else
                if n < 68850 then
                  if n < 68848 then
                    if n = 68847 then [68783] else [n]
                    else
                    if n < 68849 then
                      if n = 68848 then [68784] else [n]
                      else
                      if n = 68849 then [68785] else [n]
                  else
                  if n < 71872 then
                    if n = 68850 then [68786] else [n]
                    else
                    if n < 71873 then
                      if n = 71872 then [71840] else [n]
                      else
                      if n = 71873 then [71841] else [n]
        else
        if n < 93810 then
          if n < 71898 then
            if n < 71886 then
              if n < 71880 then
                if n < 71877 then
                  if n < 71875 then
                    if n = 71874 then [71842] else [n]
                    else
                    if n < 71876 then
                      if n = 71875 then [71843] else [n]
                      else
                      if n = 71876 then [71844] else [n]
                  else
                  if n < 71878 then
                    if n = 71877 then [71845] else [n]
                    else
                    if n < 71879 then
                      if n = 71878 then [71846] else [n]
                      else
                      if n = 71879 then [71847] else [n]
                else
                if n < 71883 then
                  if n < 71881 then
                    if n = 71880 then [71848] else [n]
                    else
                    if n < 71882 then
                      if n = 71881 then [71849] else [n]
                      else
                      if n = 71882 then [71850] else [n]
                  else
                  if n < 71884 then
                    if n = 71883 then [71851] else [n]
                    else
                    if n < 71885 then
                      if n = 71884 then [71852] else [n]
                      else
                      if n = 71885 then [71853] else [n]
              else
              if n < 71892 then
                if n < 71889 then
                  if n < 71887 then
                    if n = 71886 then [71854] else [n]
                    else
                    if n < 71888 then
                      if n = 71887 then [71855] else [n]
                      else
                      if n = 71888 then [71856] else [n]
                  else
                  if n < 71890 then
                    if n = 71889 then [71857] else [n]
                    else
                    if n < 71891 then
                      if n = 71890 then [71858] else [n]
                      else
                      if n = 71891 then [71859] else [n]
                else
                if n < 71895 then
                  if n < 71893 then
                    if n = 71892 then [71860] else [n]
                    else
                    if n < 71894 then
                      if n = 71893 then [71861] else [n]
                      else
                      if n = 71894 then [71862] else [n]
                  else
                  if n < 71896 then
                    if n = 71895 then [71863] else [n]
                    else
                    if n < 71897 then
                      if n = 71896 then [71864] else [n]
                      else
                      if n = 71897 then [71865] else [n]
            else
            if n < 93798 then
              if n < 93792 then
                if n < 71901 then
                  if n < 71899 then
                    if n = 71898 then [71866] else [n]
                    else
                    if n < 71900 then
                      if n = 71899 then [71867] else [n]
                      else
                      if n = 71900 then [71868] else [n]
                  else
                  if n < 71902 then
                    if n = 71901 then [71869] else [n]
                    else
                    if n < 71903 then
                      if n = 71902 then [71870] else [n]
                      else
                      if n = 71903 then [71871] else [n]
                else
                if n < 93795 then
                  if n < 93793 then
                    if n = 93792 then [93760] else [n]
                    else
                    if n < 93794 then
                      if n = 93793 then [93761] else [n]
                      else
                      if n = 93794 then [93762] else [n]
                  else
                  if n < 93796 then
                    if n = 93795 then [93763] else [n]
                    else
                    if n < 93797 then
                      if n = 93796 then [93764] else [n]
                      else
                      if n = 93797 then [93765] else [n]
              else
              if n < 93804 then
                if n < 93801 then
                  if n < 93799 then
                    if n = 93798 then [93766] else [n]
                    else
                    if n < 93800 then
                      if n = 93799 then [93767] else [n]
                      else
                      if n = 93800 then [93768] else [n]
                  else
                  if n < 93802 then
                    if n = 93801 then [93769] else [n]
                    else
                    if n < 93803 then
                      if n = 93802 then [93770] else [n]
                      else
                      if n = 93803 then [93771] else [n]
                else
                if n < 93807 then
                  if n < 93805 then
                    if n = 93804 then [93772] else [n]
                    else
                    if n < 93806 then
                      if n = 93805 then [93773] else [n]
                      else
                      if n = 93806 then [93774] else [n]
                  else
                  if n < 93808 then
                    if n = 93807 then [93775] else [n]
                    else
                    if n < 93809 then
                      if n = 93808 then [93776] else [n]
                      else
                      if n = 93809 then [93777] else [n]
          else
          if n < 125228 then
            if n < 93822 then
              if n < 93816 then
                if n < 93813 then
                  if n < 93811 then
                    if n = 93810 then [93778] else [n]
                    else
                    if n < 93812 then
                      if n = 93811 then [93779] else [n]
                      else
                      if n = 93812 then [93780] else [n]
                  else
                  if n < 93814 then
                    if n = 93813 then [93781] else [n]
                    else
                    if n < 93815 then
                      if n = 93814 then [93782] else [n]
                      else
                      if n = 93815 then [93783] else [n]
                else
                if n < 93819 then
                  if n < 93817 then
                    if n = 93816 then [93784] else [n]
                    else
                    if n < 93818 then
                      if n = 93817 then [93785] else [n]
                      else
                      if n = 93818 then [93786] else [n]
                  else
                  if n < 93820 then
                    if n = 93819 then [93787] else [n]
                    else
                    if n < 93821 then
                      if n = 93820 then [93788] else [n]
                      else
                      if n = 93821 then [93789] else [n]
              else
              if n < 125222 then
                if n < 125219 then
                  if n < 93823 then
                    if n = 93822 then [93790] else [n]
                    else
                    if n < 125218 then
                      if n = 93823 then [93791] else [n]
                      else
                      if n = 125218 then [125184] else [n]
                  else
                  if n < 125220 then
                    if n = 125219 then [125185] else [n]
                    else
                    if n < 125221 then
                      if n = 125220 then [125186] else [n]
                      else
                      if n = 125221 then [125187] else [n]
                else
                if n < 125225 then
                  if n < 125223 then
                    if n = 125222 then [125188] else [n]
                    else
                    if n < 125224 then
                      if n = 125223 then [125189] else [n]
                      else
                      if n = 125224 then [125190] else [n]
                  else
                  if n < 125226 then
                    if n = 125225 then [125191] else [n]
                    else
                    if n < 125227 then
                      if n = 125226 then [125192] else [n]
                      else
                      if n = 125227 then [125193] else [n]
            else
            if n < 125240 then
              if n < 125234 then
                if n < 125231 then
                  if n < 125229 then
                    if n = 125228 then [125194] else [n]
                    else
                    if n < 125230 then
                      if n = 125229 then [125195] else [n]
                      else
                      if n = 125230 then [125196] else [n]
                  else
                  if n < 125232 then
                    if n = 125231 then [125197] else [n]
                    else
                    if n < 125233 then
                      if n = 125232 then [125198] else [n]
                      else
                      if n = 125233 then [125199] else [n]
                else
                if n < 125237 then
                  if n < 125235 then
                    if n = 125234 then [125200] else [n]
                    else
                    if n < 125236 then
                      if n = 125235 then [125201] else [n]
                      else
                      if n = 125236 then [125202] else [n]
                  else
                  if n < 125238 then
                    if n = 125237 then [125203] else [n]
                    else
                    if n < 125239 then
                      if n = 125238 then [125204] else [n]
                      else
                      if n = 125239 then [125205] else [n]
              else
              if n < 125246 then
                if n < 125243 then
                  if n < 125241 then
                    if n = 125240 then [125206] else [n]
                    else
                    if n < 125242 then
                      if n = 125241 then [125207] else [n]
                      else
                      if n = 125242 then [125208] else [n]
                  else
                  if n < 125244 then
                    if n = 125243 then [125209] else [n]
                    else
                    if n < 125245 then
                      if n = 125244 then [125210] else [n]
                      else
                      if n = 125245 then [125211] else [n]
                else
                if n < 125249 then
                  if n < 125247 then
                    if n = 125246 then [125212] else [n]
                    else
                    if n < 125248 then
                      if n = 125247 then [125213] else [n]
                      else
                      if n = 125248 then [125214] else [n]
                  else
                  if n < 125250 then
                    if n = 125249 then [125215] else [n]
                    else
                    if n < 125251 then
                      if n = 125250 then [125216] else [n]
                      else
                      if n = 125251 then [125217] else [n]

/-- Python uppercasing of one character: the full case mapping applied by
`str.upper()`, which can produce several characters. -/
def py_upperChar (c : Char) : List Char :=
  (py_upperNat c.toNat).map Char.ofNat

/-- Python `s.upper()`: concatenate the full uppercase mapping of each
character. -/
def py_upper (s : String) : String :=
  String.mk (s.data.flatMap py_upperChar)

/-- Python `sep.join(parts)`. -/
def py_join (sep : String) : List String → String
  | [] => ""
  | [t] => t
  | t :: ts => t ++ sep ++ py_join sep ts

/-- `protocol.parse_command`:
`parts = command_str.strip().split()`; empty `parts` yields
`(None, None, None)`; otherwise `(parts[0].upper(), parts[1] if len > 1
else None, ' '.join(parts[2:]) if len > 2 else None)`. -/
def parse_command (s : String) : Option String × Option String × Option String :=
  match pySplit (py_strip s) with
  | [] => (none, none, none)
  | t :: rest =>
    (some (py_upper t), rest.head?,
      if rest.length > 1 then some (py_join " " (rest.drop 1)) else none)

/-- `protocol.format_response`: `"(nil)\n"` for `None`, else `f"{response}\n"`. -/
def format_response : Option String → String
  | none => "(nil)\n"
  | some r => r ++ "\n"

/-- The in-memory store of `storage.Storage`, as the lookup function of its
`_data` dict: `none` means the key is not in the dict, `some v` that it maps
to the (possibly `None`) value `v`. -/
abbrev Storage := Option String → Option (Option String)

namespace Storage

/-- The dict `{}` built by `Storage.__init__`. -/
def empty : Storage := fun _ => none

/-- `Storage.get`: `self._data.get(key)` — the stored value, or `None`
when the key is absent (a key stored with value `None` is indistinguishable
from an absent key through `get`). -/
def get (st : Storage) (key : Option String) : Option String :=
  (st key).join

/-- `Storage.set`: `self._data[key] = value`. -/
def set (st : Storage) (key value : Option String) : Storage :=
  fun k => if k = key then some value else st k

/-- `Storage.delete`: if `key in self._data` remove it and return `True`,
else return `False`.  Returned as (result, new store). -/
def delete (st : Storage) (key : Option String) : Bool × Storage :=
  if (st key).isSome then (true, fun k => if k = key then none else st k)
  else (false, st)

end Storage

/-- `Server.execute_command`: dispatch on the decoded verb; returns the
response value (a string or `None`) and the store after the command. -/
def execute_command (st : Storage) (command key value : Option String) :
    Option String × Storage :=
  if command = some "GET" then (Storage.get st key, st)
  else if command = some "SET" then (some "OK", Storage.set st key value)
  else if command = some "DELETE" then
    match Storage.delete st key with
    | (true, st') => (some "1", st')
    | (false, st') => (some "0", st')
  else (some "ERROR: Unknown command", st)

/-- One iteration of `Server.handle_connection`: decode the received text,
execute it, format the response. -/
def process_line (st : Storage) (line : String) : String × Storage :=
  match parse_command line with
  | (c, k, v) =>
    match execute_command st c k v with
    | (r, st') => (format_response r, st')

/-- A decoded command triple as fed to `execute_command`. -/
abbrev Cmd := Option String × Option String × Option String

/-- Execute a whole sequence of decoded commands, threading the store. -/
def runCommands (st : Storage) : List Cmd → Storage
  | [] => st
  | (c, k, v) :: rest => runCommands (execute_command st c k v).2 rest

/-! ## Tokenizer lemmas -/

theorem splitWs_allws (b : List Char) (acc : List Char)
    (hb : ∀ c ∈ b, isPyWs c = true) :
    splitWs b acc = if acc.isEmpty then [] else [String.mk acc.reverse] := by
  induction b generalizing acc with
  | nil => rfl
  | cons c cs ih =>
    have hc : isPyWs c = true := hb c (by simp)
    have hcs : ∀ x ∈ cs, isPyWs x = true := fun x hx => hb x (by simp [hx])
    by_cases ha : acc.isEmpty <;> simp [splitWs, hc, ha, ih [] hcs]

theorem splitWs_token (t : List Char) (l acc : List Char)
    (h : ∀ c ∈ t, isPyWs c = false) :
    splitWs (t ++ l) acc = splitWs l (t.reverse ++ acc) := by
  induction t generalizing acc with
  | nil => simp
  | cons c cs ih =>
    have hc : isPyWs c = false := h c (by simp)
    have hcs : ∀ x ∈ cs, isPyWs x = false := fun x hx => h x (by simp [hx])
    simp [splitWs, hc, ih (c :: acc) hcs]

theorem splitWs_wsskip (w l : List Char) (hw : ∀ c ∈ w, isPyWs c = true) :
    splitWs (w ++ l) [] = splitWs l [] := by
  induction w with
  | nil => rfl
  | cons c cs ih =>
    have hc : isPyWs c = true := hw c (by simp)
    have hcs : ∀ x ∈ cs, isPyWs x = true := fun x hx => hw x (by simp [hx])
    simp [splitWs, hc, ih hcs]

theorem splitWs_flush (w l acc : List Char) (hw : w ≠ [])
    (hws : ∀ c ∈ w, isPyWs c = true) (hacc : acc ≠ []) :
    splitWs (w ++ l) acc = String.mk acc.reverse :: splitWs l [] := by
  cases w with
  | nil => exact absurd rfl hw
  | cons c cs =>
    have hc : isPyWs c = true := hws c (by simp)
    have hcs : ∀ x ∈ cs, isPyWs x = true := fun x hx => hws x (by simp [hx])
    have hae : acc.isEmpty = false := by
      cases acc with
      | nil => exact absurd rfl hacc
      | cons a as => rfl
    simp [splitWs, hc, hae, splitWs_wsskip cs l hcs]

theorem splitWs_trailing (a b : List Char) (acc : List Char)
    (hb : ∀ c ∈ b, isPyWs c = true) :
    splitWs (a ++ b) acc = splitWs a acc := by
  induction a generalizing acc with
  | nil => simp [splitWs_allws b acc hb, splitWs]
  | cons c cs ih =>
    by_cases hc : isPyWs c = true
    · by_cases ha : acc.isEmpty <;> simp [splitWs, hc, ha, ih []]
    · simp at hc
      simp [splitWs, hc, ih (c :: acc)]

theorem splitWs_leading (l : List Char) :
    splitWs (l.dropWhile isPyWs) [] = splitWs l [] := by
  induction l with
  | nil => rfl
  | cons c cs ih =>
    by_cases hc : isPyWs c = true
    · simp [List.dropWhile, hc, ih, splitWs]
    · simp at hc
      simp [List.dropWhile, hc]

theorem pySplit_strip (s : String) : pySplit (py_strip s) = pySplit s := by
  show splitWs (stripChars s.data) [] = splitWs s.data []
  unfold stripChars
  have hdecomp : s.data.dropWhile isPyWs =
      ((s.data.dropWhile isPyWs).reverse.dropWhile isPyWs).reverse ++
        ((s.data.dropWhile isPyWs).reverse.takeWhile isPyWs).reverse := by
    conv_lhs =>
      rw [← List.reverse_reverse (s.data.dropWhile isPyWs),
        ← List.takeWhile_append_dropWhile (p := isPyWs)
          (l := (s.data.dropWhile isPyWs).reverse)]
    rw [List.reverse_append]
  have hws : ∀ c ∈ ((s.data.dropWhile isPyWs).reverse.takeWhile isPyWs).reverse,
      isPyWs c = true := by
    intro c hc
    rw [List.mem_reverse] at hc
    exact List.mem_takeWhile_imp hc
  calc splitWs (((s.data.dropWhile isPyWs).reverse.dropWhile isPyWs).reverse) []
      = splitWs ((((s.data.dropWhile isPyWs).reverse.dropWhile isPyWs).reverse) ++
          ((s.data.dropWhile isPyWs).reverse.takeWhile isPyWs).reverse) [] :=
        (splitWs_trailing _ _ _ hws).symm
    _ = splitWs (s.data.dropWhile isPyWs) [] := by rw [← hdecomp]
    _ = splitWs s.data [] := splitWs_leading s.data

theorem splitWs_ne_nil_of_acc (l acc : List Char) (hacc : acc ≠ []) :
    splitWs l acc ≠ [] := by
  induction l generalizing acc with
  | nil =>
    have hae : acc.isEmpty = false := by
      cases acc with
      | nil => exact absurd rfl hacc
      | cons a as => rfl
    simp [splitWs, hae]
  | cons c cs ih =>
    have hae : acc.isEmpty = false := by
      cases acc with
      | nil => exact absurd rfl hacc
      | cons a as => rfl
    by_cases hc : isPyWs c = true
    · simp [splitWs, hc, hae]
    · simp at hc
      have hstep : splitWs (c :: cs) acc = splitWs cs (c :: acc) := by
        simp [splitWs, hc]
      rw [hstep]
      exact ih (c :: acc) (by simp)

theorem splitWs_nil_iff (l : List Char) :
    splitWs l [] = [] ↔ ∀ c ∈ l, isPyWs c = true := by
  constructor
  · intro h
    induction l with
    | nil => simp
    | cons c cs ih =>
      by_cases hc : isPyWs c = true
      · simp only [splitWs, hc, if_pos rfl, List.isEmpty_nil, if_true] at h
        intro x hx
        rcases List.mem_cons.mp hx with rfl | hx
        · exact hc
        · exact ih (by simpa [splitWs, hc] using h) x hx
      · simp at hc
        rw [show splitWs (c :: cs) [] = splitWs cs [c] by simp [splitWs, hc]] at h
        exact absurd h (splitWs_ne_nil_of_acc cs [c] (by simp))
  · intro h
    rw [splitWs_allws l [] h]
    rfl

/-! ## Store-trace machinery -/

/-- The command `d` is a `SET` whose key is `k`. -/
def isSetFor (k : Option String) (d : Cmd) : Prop :=
  d.1 = some "SET" ∧ d.2.1 = k

/-- The command `d` is a `DELETE` whose key is `k`. -/
def isDelFor (k : Option String) (d : Cmd) : Prop :=
  d.1 = some "DELETE" ∧ d.2.1 = k

/-- The command `d` can change the binding of key `k`. -/
def touches (k : Option String) (d : Cmd) : Prop :=
  (d.1 = some "SET" ∨ d.1 = some "DELETE") ∧ d.2.1 = k

instance (k : Option String) (d : Cmd) : Decidable (isSetFor k d) := by
  unfold isSetFor
  infer_instance

instance (k : Option String) (d : Cmd) : Decidable (isDelFor k d) := by
  unfold isDelFor
  infer_instance

instance (k : Option String) (d : Cmd) : Decidable (touches k d) := by
  unfold touches
  infer_instance

theorem touches_iff (k : Option String) (d : Cmd) :
    touches k d ↔ isSetFor k d ∨ isDelFor k d := by
  unfold touches isSetFor isDelFor
  tauto

/-- What a command sequence does to the binding of one key `k`,
starting from binding `cur`. -/
def foldKey (k : Option String) : Option (Option String) → List Cmd → Option (Option String)
  | cur, [] => cur
  | cur, (c, key, v) :: rest =>
    foldKey k (if c = some "SET" ∧ key = k then some v
               else if c = some "DELETE" ∧ key = k then none else cur) rest

theorem execute_command_snd (st : Storage) (c key v k : Option String) :
    (execute_command st c key v).2 k =
      if c = some "SET" ∧ key = k then some v
      else if c = some "DELETE" ∧ key = k then none
      else st k := by
  by_cases h1 : c = some "GET"
  · subst h1
    simp [execute_command]
  · by_cases h2 : c = some "SET"
    · subst h2
      by_cases h6 : key = k
      · subst h6
        simp [execute_command, Storage.set]
      · have h7 : ¬(k = key) := fun h => h6 h.symm
        simp [execute_command, Storage.set, h6, h7]
    · by_cases h3 : c = some "DELETE"
      · subst h3
        by_cases h4 : (st key).isSome
        · by_cases h6 : key = k
          · subst h6
            simp [execute_command, Storage.delete, h4]
          · have h7 : ¬(k = key) := fun h => h6 h.symm
            simp [execute_command, Storage.delete, h4, h6, h7]
        · have h5 : st key = none := Option.not_isSome_iff_eq_none.mp h4
          by_cases h6 : key = k
          · subst h6
            simp [execute_command, Storage.delete, h4, h5]
          · simp [execute_command, Storage.delete, h4, h6]
      · simp [execute_command, h1, h2, h3]

theorem runCommands_lookup (cmds : List Cmd) (st : Storage) (k : Option String) :
    runCommands st cmds k = foldKey k (st k) cmds := by
  induction cmds generalizing st with
  | nil => rfl
  | cons d rest ih =>
    obtain ⟨c, key, v⟩ := d
    show runCommands (execute_command st c key v).2 rest k = _
    rw [ih]
    show _ = foldKey k _ rest
    rw [execute_command_snd]

theorem cons_eq_append_cons {α : Type} (d x : α) (rest pre post : List α) :
    d :: rest = pre ++ x :: post ↔
      (pre = [] ∧ d = x ∧ rest = post) ∨
        ∃ pre2, pre = d :: pre2 ∧ rest = pre2 ++ x :: post := by
  rw [List.cons_eq_append_iff]
  constructor
  · rintro (⟨rfl, h⟩ | ⟨q, rfl, rfl⟩)
    · injection h with h1 h2
      exact Or.inl ⟨rfl, h1.symm, h2.symm⟩
    · exact Or.inr ⟨q, rfl, rfl⟩
  · rintro (⟨rfl, rfl, rfl⟩ | ⟨q, rfl, rfl⟩)
    · exact Or.inl ⟨rfl, rfl⟩
    · exact Or.inr ⟨q, rfl, rfl⟩

theorem split_cons_iff {α : Type} (d x : α) (rest : List α) (P : α → Prop) :
    (∃ pre post, d :: rest = pre ++ x :: post ∧ ∀ e ∈ post, P e) ↔
      (d = x ∧ ∀ e ∈ rest, P e) ∨
        ∃ pre post, rest = pre ++ x :: post ∧ ∀ e ∈ post, P e := by
  constructor
  · rintro ⟨pre, post, heq, hc⟩
    rcases (cons_eq_append_cons d x rest pre post).mp heq with ⟨_, h2, rfl⟩ | ⟨pre2, _, rfl⟩
    · exact Or.inl ⟨h2, hc⟩
    · exact Or.inr ⟨pre2, post, rfl, hc⟩
  · rintro (⟨heq, hc⟩ | ⟨pre, post, rfl, hc⟩)
    · exact ⟨[], rest, by rw [heq]; rfl, hc⟩
    · exact ⟨d :: pre, post, rfl, hc⟩

theorem split_cons_pred_iff {α : Type} (d : α) (rest : List α) (Q P : α → Prop) :
    (∃ pre x post, d :: rest = pre ++ x :: post ∧ Q x ∧ ∀ e ∈ post, P e) ↔
      (Q d ∧ ∀ e ∈ rest, P e) ∨
        ∃ pre x post, rest = pre ++ x :: post ∧ Q x ∧ ∀ e ∈ post, P e := by
  constructor
  · rintro ⟨pre, x, post, heq, hq, hc⟩
    rcases (cons_eq_append_cons d x rest pre post).mp heq with ⟨_, rfl, rfl⟩ | ⟨pre2, _, rfl⟩
    · exact Or.inl ⟨hq, hc⟩
    · exact Or.inr ⟨pre2, x, post, rfl, hq, hc⟩
  · rintro (⟨hq, hc⟩ | ⟨pre, x, post, rfl, hq, hc⟩)
    · exact ⟨[], d, rest, rfl, hq, hc⟩
    · exact ⟨d :: pre, x, post, rfl, hq, hc⟩

theorem foldKey_eq_some_iff (k v : Option String) (cmds : List Cmd) :
    ∀ cur, foldKey k cur cmds = some v ↔
      (∃ pre post, cmds = pre ++ ((some "SET" : Option String), k, v) :: post ∧
          ∀ d ∈ post, ¬ touches k d) ∨
        (cur = some v ∧ ∀ d ∈ cmds, ¬ touches k d) := by
  induction cmds with
  | nil =>
    intro cur
    simp [foldKey]
  | cons d rest ih =>
    intro cur
    obtain ⟨c, key, vv⟩ := d
    rw [split_cons_iff, List.forall_mem_cons]
    by_cases hset : c = some "SET" ∧ key = k
    · have hfold : foldKey k cur ((c, key, vv) :: rest) = foldKey k (some vv) rest := by
        show foldKey k (if c = some "SET" ∧ key = k then some vv
            else if c = some "DELETE" ∧ key = k then none else cur) rest = _
        rw [if_pos hset]
      rw [hfold, ih (some vv)]
      have htouch : touches k (c, key, vv) := ⟨Or.inl hset.1, hset.2⟩
      have h1 : ((c, key, vv) = ((some "SET" : Option String), k, v)) ↔ vv = v := by
        simp [Prod.ext_iff, hset.1, hset.2]
      constructor
      · rintro (hsp | ⟨hv, hnt⟩)
        · exact Or.inl (Or.inr hsp)
        · exact Or.inl (Or.inl ⟨h1.mpr (Option.some.inj hv), hnt⟩)
      · rintro ((⟨heq, hcl⟩ | hsp) | ⟨hcur, hnt, _⟩)
        · exact Or.inr ⟨congrArg some (h1.mp heq), hcl⟩
        · exact Or.inl hsp
        · exact absurd htouch hnt
    · by_cases hdel : c = some "DELETE" ∧ key = k
      · have hfold : foldKey k cur ((c, key, vv) :: rest) = foldKey k none rest := by
          show foldKey k (if c = some "SET" ∧ key = k then some vv
              else if c = some "DELETE" ∧ key = k then none else cur) rest = _
          rw [if_neg hset, if_pos hdel]
        rw [hfold, ih none]
        have htouch : touches k (c, key, vv) := ⟨Or.inr hdel.1, hdel.2⟩
        have h1 : ¬((c, key, vv) = ((some "SET" : Option String), k, v)) := by
          intro h
          rw [Prod.ext_iff] at h
          exact hset ⟨h.1, hdel.2⟩
        constructor
        · rintro (hsp | ⟨hv, _⟩)
          · exact Or.inl (Or.inr hsp)
          · exact absurd hv (by simp)
        · rintro ((⟨heq, _⟩ | hsp) | ⟨_, hnt, _⟩)
          · exact absurd heq h1
          · exact Or.inl hsp
          · exact absurd htouch hnt
      · have hfold : foldKey k cur ((c, key, vv) :: rest) = foldKey k cur rest := by
          show foldKey k (if c = some "SET" ∧ key = k then some vv
              else if c = some "DELETE" ∧ key = k then none else cur) rest = _
          rw [if_neg hset, if_neg hdel]
        rw [hfold, ih cur]
        have htouch : ¬ touches k (c, key, vv) := by
          rintro ⟨hor, hk⟩
          rcases hor with h | h
          · exact hset ⟨h, hk⟩
          · exact hdel ⟨h, hk⟩
        have h1 : ¬((c, key, vv) = ((some "SET" : Option String), k, v)) := by
          intro h
          rw [Prod.ext_iff] at h
          refine hset ⟨h.1, ?_⟩
          have h2 := h.2
          rw [Prod.ext_iff] at h2
          exact h2.1
        constructor
        · rintro (hsp | ⟨hcur, hnt⟩)
          · exact Or.inl (Or.inr hsp)
          · exact Or.inr ⟨hcur, htouch, hnt⟩
        · rintro ((⟨heq, _⟩ | hsp) | ⟨hcur, _, hnt⟩)
          · exact absurd heq h1
          · exact Or.inl hsp
          · exact Or.inr ⟨hcur, hnt⟩

theorem foldKey_ne_none_iff (k : Option String) (cmds : List Cmd) :
    ∀ cur, foldKey k cur cmds ≠ none ↔
      (∃ pre x post, cmds = pre ++ x :: post ∧ isSetFor k x ∧
          ∀ d ∈ post, ¬ isDelFor k d) ∨
        (cur ≠ none ∧ ∀ d ∈ cmds, ¬ touches k d) := by
  induction cmds with
  | nil =>
    intro cur
    simp [foldKey]
  | cons d rest ih =>
    intro cur
    obtain ⟨c, key, vv⟩ := d
    rw [split_cons_pred_iff, List.forall_mem_cons]
    by_cases hset : c = some "SET" ∧ key = k
    · have hfold : foldKey k cur ((c, key, vv) :: rest) = foldKey k (some vv) rest := by
        show foldKey k (if c = some "SET" ∧ key = k then some vv
            else if c = some "DELETE" ∧ key = k then none else cur) rest = _
        rw [if_pos hset]
      rw [hfold, ih (some vv)]
      have hsf : isSetFor k (c, key, vv) := ⟨hset.1, hset.2⟩
      have htouch : touches k (c, key, vv) := ⟨Or.inl hset.1, hset.2⟩
      constructor
      · rintro (hsp | ⟨_, hnt⟩)
        · exact Or.inl (Or.inr hsp)
        · exact Or.inl (Or.inl ⟨hsf,
            fun e he hd => hnt e he ((touches_iff k e).mpr (Or.inr hd))⟩)
      · rintro ((⟨_, hcl⟩ | hsp) | ⟨_, hnt, _⟩)
        · by_cases hex : ∃ x ∈ rest, isSetFor k x
          · obtain ⟨x, hx, hqx⟩ := hex
            obtain ⟨s, t, rfl⟩ := List.append_of_mem hx
            exact Or.inl ⟨s, x, t, rfl, hqx,
              fun e he => hcl e (List.mem_append.mpr (Or.inr (List.mem_cons_of_mem x he)))⟩
          · push_neg at hex
            refine Or.inr ⟨by simp, fun e he ht => ?_⟩
            rcases (touches_iff k e).mp ht with hS | hD
            · exact hex e he hS
            · exact hcl e he hD
        · exact Or.inl hsp
        · exact absurd htouch hnt
    · by_cases hdel : c = some "DELETE" ∧ key = k
      · have hfold : foldKey k cur ((c, key, vv) :: rest) = foldKey k none rest := by
          show foldKey k (if c = some "SET" ∧ key = k then some vv
              else if c = some "DELETE" ∧ key = k then none else cur) rest = _
          rw [if_neg hset, if_pos hdel]
        rw [hfold, ih none]
        have htouch : touches k (c, key, vv) := ⟨Or.inr hdel.1, hdel.2⟩
        have h1 : ¬ isSetFor k (c, key, vv) := fun h => hset ⟨h.1, h.2⟩
        constructor
        · rintro (hsp | ⟨hv, _⟩)
          · exact Or.inl (Or.inr hsp)
          · exact absurd rfl hv
        · rintro ((⟨hq, _⟩ | hsp) | ⟨_, hnt, _⟩)
          · exact absurd hq h1
          · exact Or.inl hsp
          · exact absurd htouch hnt
      · have hfold : foldKey k cur ((c, key, vv) :: rest) = foldKey k cur rest := by
          show foldKey k (if c = some "SET" ∧ key = k then some vv
              else if c = some "DELETE" ∧ key = k then none else cur) rest = _
          rw [if_neg hset, if_neg hdel]
        rw [hfold, ih cur]
        have htouch : ¬ touches k (c, key, vv) := by
          rintro ⟨hor, hk⟩
          rcases hor with h | h
          · exact hset ⟨h, hk⟩
          · exact hdel ⟨h, hk⟩
        have h1 : ¬ isSetFor k (c, key, vv) := fun h => hset ⟨h.1, h.2⟩
        constructor
        · rintro (hsp | ⟨hcur, hnt⟩)
          · exact Or.inl (Or.inr hsp)
          · exact Or.inr ⟨hcur, htouch, hnt⟩
        · rintro ((⟨hq, _⟩ | hsp) | ⟨hcur, _, hnt⟩)
          · exact absurd hq h1
          · exact Or.inl hsp
          · exact Or.inr ⟨hcur, hnt⟩

theorem foldKey_none_of_no_set (k : Option String) (cmds : List Cmd) :
    (∀ d ∈ cmds, ¬ isSetFor k d) → foldKey k none cmds = none := by
  induction cmds with
  | nil =>
    intro _
    rfl
  | cons d rest ih =>
    intro h
    obtain ⟨c, key, vv⟩ := d
    have hd : ¬ isSetFor k (c, key, vv) := h _ (List.mem_cons_self _ _)
    have hns : ¬(c = some "SET" ∧ key = k) := fun hs => hd ⟨hs.1, hs.2⟩
    have hrest : ∀ e ∈ rest, ¬ isSetFor k e := fun e he => h e (List.mem_cons_of_mem _ he)
    show foldKey k (if c = some "SET" ∧ key = k then some vv
        else if c = some "DELETE" ∧ key = k then none else none) rest = none
    rw [if_neg hns, ite_self]
    exact ih hrest

theorem dropWhile_has_false (p : Char → Bool) (m : List Char) :
    m.dropWhile p ≠ [] → ∃ c ∈ m.dropWhile p, p c = false := by
  induction m with
  | nil =>
    intro h
    exact absurd rfl h
  | cons c cs ih =>
    intro h
    by_cases hc : p c = true
    · simp only [List.dropWhile, hc] at h ⊢
      exact ih h
    · simp at hc
      simp only [List.dropWhile, hc] at h ⊢
      exact ⟨c, List.mem_cons_self _ _, hc⟩

theorem stripChars_has_nonws (l : List Char) (h : stripChars l ≠ []) :
    ∃ c ∈ stripChars l, isPyWs c = false := by
  unfold stripChars at h ⊢
  have h2 : (l.dropWhile isPyWs).reverse.dropWhile isPyWs ≠ [] := by
    intro hh
    rw [hh] at h
    exact h rfl
  obtain ⟨c, hc, hcf⟩ := dropWhile_has_false isPyWs (l.dropWhile isPyWs).reverse h2
  exact ⟨c, List.mem_reverse.mpr hc, hcf⟩

theorem pySplit_strip_ne_nil (s : String) (h : py_strip s ≠ "") :
    pySplit (py_strip s) ≠ [] := by
  intro hnil
  have h1 : stripChars s.data ≠ [] := by
    intro hh
    refine h ?_
    show String.mk (stripChars s.data) = ""
    rw [hh]
  obtain ⟨c, hc, hcf⟩ := stripChars_has_nonws s.data h1
  have hnil2 : splitWs (stripChars s.data) [] = [] := hnil
  have hw := (splitWs_nil_iff (stripChars s.data)).mp hnil2 c hc
  rw [hcf] at hw
  exact Bool.false_ne_true hw

/-! ## The claims -/

/-- Claim C1: `execute_command` follows the dispatch table: `GET` returns the
store's current value for the key, or the nil marker when the key is unbound;
`SET` stores the value under the key and returns `"OK"`; `DELETE` returns
`"1"` when the key was present (removing its binding) and `"0"` otherwise;
any other verb — including the absent verb that an empty or whitespace-only
line decodes to — yields `"ERROR: Unknown command"`. -/
theorem claim_C1 (st : Storage) (c k v : Option String) (s : String)
    (hc : c ≠ some "GET" ∧ c ≠ some "SET" ∧ c ≠ some "DELETE")
    (hs : py_strip s = "") :
    (execute_command st (some "GET") k v).1 =
      (match st k with | some w => w | none => none) ∧
    (execute_command st (some "SET") k v).1 = some "OK" ∧
    (execute_command st (some "SET") k v).2 = Storage.set st k v ∧
    (execute_command st (some "DELETE") k v).1 =
      (if (st k).isSome then some "1" else some "0") ∧
    ((execute_command st (some "DELETE") k v).2) k = none ∧
    (execute_command st c k v).1 = some "ERROR: Unknown command" ∧
    (execute_command st none k v).1 = some "ERROR: Unknown command" ∧
    (parse_command s).1 = none := by
  refine ⟨?_, ?_, ?_, ?_, ?_, ?_, ?_, ?_⟩
  · cases hk : st k <;> simp [execute_command, Storage.get, hk]
  · simp [execute_command]
  · simp [execute_command]
  · by_cases h4 : (st k).isSome <;> simp [execute_command, Storage.delete, h4]
  · by_cases h4 : (st k).isSome
    · simp [execute_command, Storage.delete, h4]
    · have h5 : st k = none := Option.not_isSome_iff_eq_none.mp h4
      simp [execute_command, Storage.delete, h4, h5]
  · simp [execute_command, hc.1, hc.2.1, hc.2.2]
  · simp [execute_command]
  · unfold parse_command
    rw [hs]
    rfl

/-- Claim C1 witness at concrete inputs. -/
theorem claim_C1_witness :
    (execute_command Storage.empty (some "FOO") (some "k") none).1 =
      some "ERROR: Unknown command" ∧
    (parse_command "   ").1 = none :=
  ⟨(claim_C1 Storage.empty (some "FOO") (some "k") none "   "
      (by decide) (by decide)).2.2.2.2.2.1,
   (claim_C1 Storage.empty (some "FOO") (some "k") none "   "
      (by decide) (by decide)).2.2.2.2.2.2.2⟩

/-- Claim C2: `parse_command` strips the line, returns the absent triple when
nothing remains, and otherwise splits on whitespace runs and returns the first
token upper-cased, the second token (if any) as key, and the remaining tokens
joined by single spaces (if any) as value; the verb is case-insensitive and
multi-word values survive. -/
theorem claim_C2 (s1 s2 : String) (h1 : py_strip s1 = "") (h2 : py_strip s2 ≠ "") :
    parse_command s1 = (none, none, none) ∧
    (∃ t rest, pySplit s2 = t :: rest ∧
      parse_command s2 = (some (py_upper t), rest.head?,
        if rest.length > 1 then some (py_join " " (rest.drop 1)) else none)) ∧
    parse_command "set name Gemini" = parse_command "SET name Gemini" ∧
    parse_command "SET name Gemini" = (some "SET", some "name", some "Gemini") ∧
    (parse_command "SET greeting hello world").2.2 = some "hello world" := by
  refine ⟨?_, ?_, by decide, by decide, by decide⟩
  · unfold parse_command
    rw [h1]
    rfl
  · have hne : pySplit (py_strip s2) ≠ [] := pySplit_strip_ne_nil s2 h2
    obtain ⟨t, rest, hts⟩ : ∃ t rest, pySplit (py_strip s2) = t :: rest := by
      cases hx : pySplit (py_strip s2) with
      | nil => exact absurd hx hne
      | cons a b => exact ⟨a, b, rfl⟩
    refine ⟨t, rest, ?_, ?_⟩
    · rw [← pySplit_strip]
      exact hts
    · unfold parse_command
      rw [hts]

/-- Claim C2 witness at concrete inputs. -/
theorem claim_C2_witness :
    parse_command " \t " = (none, none, none) ∧
    (∃ t rest, pySplit "get name" = t :: rest ∧
      parse_command "get name" = (some (py_upper t), rest.head?,
        if rest.length > 1 then some (py_join " " (rest.drop 1)) else none)) ∧
    parse_command "set name Gemini" = parse_command "SET name Gemini" ∧
    parse_command "SET name Gemini" = (some "SET", some "name", some "Gemini") ∧
    (parse_command "SET greeting hello world").2.2 = some "hello world" :=
  claim_C2 " \t " "get name" (by decide) (by decide)

/-- Claim C3: starting from the empty store, after any finite command
sequence a key is bound exactly when the sequence contains a `SET` for it
with no later `DELETE` of it, and the binding's value is the value of the
latest `SET` for it (the `SET` with no later `SET` or `DELETE` of the key). -/
theorem claim_C3 (cmds : List Cmd) (k v : Option String) :
    (runCommands Storage.empty cmds k = some v ↔
      ∃ pre post, cmds = pre ++ ((some "SET" : Option String), k, v) :: post ∧
        ∀ d ∈ post, ¬ touches k d) ∧
    (runCommands Storage.empty cmds k ≠ none ↔
      ∃ pre x post, cmds = pre ++ x :: post ∧ isSetFor k x ∧
        ∀ d ∈ post, ¬ isDelFor k d) := by
  have h1 := runCommands_lookup cmds Storage.empty k
  constructor
  · rw [h1, foldKey_eq_some_iff k v cmds (Storage.empty k)]
    simp [Storage.empty]
  · rw [h1, foldKey_ne_none_iff k cmds (Storage.empty k)]
    simp [Storage.empty]

/-- Claim C4: `set` is total and always succeeds; immediately after
`set(k, v)`, `get(k)` returns `v` whatever the prior store state; and `get`
of a key never set (over any command history from the empty store) returns
the absent marker. -/
theorem claim_C4 (st : Storage) (k v : Option String) (cmds : List Cmd)
    (h : ∀ d ∈ cmds, ¬ isSetFor k d) :
    Storage.get (Storage.set st k v) k = v ∧
    Storage.get (runCommands Storage.empty cmds) k = none := by
  constructor
  · simp [Storage.get, Storage.set]
  · rw [Storage.get, runCommands_lookup]
    rw [show Storage.empty k = none from rfl]
    rw [foldKey_none_of_no_set k cmds h]
    rfl

/-- Claim C4 witness at concrete inputs. -/
theorem claim_C4_witness :
    Storage.get (Storage.set Storage.empty (some "name") (some "Gemini"))
        (some "name") = some "Gemini" ∧
    Storage.get (runCommands Storage.empty
        [(some "DELETE", some "name", none), (some "GET", some "name", none)])
      (some "name") = none :=
  claim_C4 Storage.empty (some "name") (some "Gemini")
    [(some "DELETE", some "name", none), (some "GET", some "name", none)]
    (by decide)

/-- Claim C5: `delete` returns true and removes the binding when the key is
present, returns false and leaves the store unchanged when it is absent;
afterwards `get` of the key is absent and an immediately repeated `delete`
returns false. -/
theorem claim_C5 (st1 st2 : Storage) (k1 k2 : Option String)
    (hp : (st1 k1).isSome = true) (ha : st2 k2 = none) :
    (Storage.delete st1 k1).1 = true ∧
    ((Storage.delete st1 k1).2) k1 = none ∧
    (Storage.delete st2 k2).1 = false ∧
    (Storage.delete st2 k2).2 = st2 ∧
    Storage.get (Storage.delete st1 k1).2 k1 = none ∧
    (Storage.delete (Storage.delete st1 k1).2 k1).1 = false ∧
    Storage.get (Storage.delete st2 k2).2 k2 = none ∧
    (Storage.delete (Storage.delete st2 k2).2 k2).1 = false := by
  have ha2 : (st2 k2).isSome = false := by rw [ha]; rfl
  refine ⟨?_, ?_, ?_, ?_, ?_, ?_, ?_, ?_⟩
  · simp [Storage.delete, hp]
  · simp [Storage.delete, hp]
  · simp [Storage.delete, ha2]
  · simp [Storage.delete, ha2]
  · simp [Storage.get, Storage.delete, hp]
  · simp [Storage.delete, hp]
  · simp [Storage.get, Storage.delete, ha2, ha]
  · simp [Storage.delete, ha2, ha]

/-- Claim C5 witness at concrete inputs. -/
theorem claim_C5_witness :
    (Storage.delete (Storage.set Storage.empty (some "a") (some "1")) (some "a")).1 = true ∧
    ((Storage.delete (Storage.set Storage.empty (some "a") (some "1")) (some "a")).2)
        (some "a") = none ∧
    (Storage.delete Storage.empty (some "b")).1 = false ∧
    (Storage.delete Storage.empty (some "b")).2 = Storage.empty ∧
    Storage.get (Storage.delete (Storage.set Storage.empty (some "a") (some "1"))
        (some "a")).2 (some "a") = none ∧
    (Storage.delete (Storage.delete (Storage.set Storage.empty (some "a") (some "1"))
        (some "a")).2 (some "a")).1 = false ∧
    Storage.get (Storage.delete Storage.empty (some "b")).2 (some "b") = none ∧
    (Storage.delete (Storage.delete Storage.empty (some "b")).2 (some "b")).1 = false :=
  claim_C5 (Storage.set Storage.empty (some "a") (some "1")) Storage.empty
    (some "a") (some "b") (by decide) (by decide)

/-- Claim C6: `format_response` appends exactly one newline to a value and
renders the absent marker as the literal `"(nil)\n"`, with no escaping even
when the value itself contains a newline. -/
theorem claim_C6 (v : String) :
    format_response (some v) = v ++ "\n" ∧
    format_response none = "(nil)\n" ∧
    format_response (some "a\nb") = "a\nb\n" := by
  refine ⟨rfl, rfl, rfl⟩

/-- Claim C7: a `GET`, any unrecognized verb, the absent verb, or a `DELETE`
of an absent key leaves the store mapping unchanged: only `SET`, or `DELETE`
of a present key, mutates the store. -/
theorem claim_C7 (st : Storage) (c k v : Option String)
    (h1 : c ≠ some "SET") (h2 : ¬(c = some "DELETE" ∧ (st k).isSome = true)) :
    (execute_command st c k v).2 = st := by
  by_cases hg : c = some "GET"
  · simp [execute_command, hg]
  · by_cases hd : c = some "DELETE"
    · have h4 : (st k).isSome = false := by
        cases hx : (st k).isSome with
        | false => rfl
        | true => exact absurd ⟨hd, hx⟩ h2
      simp [execute_command, hg, h1, hd, Storage.delete, h4]
    · simp [execute_command, hg, h1, hd]

/-- Claim C7 witness at concrete inputs. -/
theorem claim_C7_witness :
    (execute_command Storage.empty (some "GET") (some "a") none).2 = Storage.empty :=
  claim_C7 Storage.empty (some "GET") (some "a") none (by decide) (by decide)

/-- Claim C8: the operations are total when key or value is absent: `SET`
with an absent key binds the absent key and returns `"OK"`, `GET` with an
absent key returns whatever is bound under it, and `DELETE` with an absent
key answers per presence of that binding — nothing fails. -/
theorem claim_C8 (st : Storage) :
    (execute_command st (some "SET") none none).1 = some "OK" ∧
    ((execute_command st (some "SET") none none).2) none = some none ∧
    (execute_command st (some "GET") none none).1 = Storage.get st none ∧
    (execute_command st (some "DELETE") none none).1 =
      (if (st none).isSome then some "1" else some "0") := by
  refine ⟨?_, ?_, ?_, ?_⟩
  · simp [execute_command]
  · simp [execute_command, Storage.set]
  · simp [execute_command]
  · by_cases h4 : (st none).isSome <;> simp [execute_command, Storage.delete, h4]

/-! ## Request lines built from explicit tokens and separators -/

theorem data_append (a b : String) : (a ++ b).data = a.data ++ b.data := rfl

theorem splitWs_single_token (t : List Char) (ht : t ≠ [])
    (h : ∀ c ∈ t, isPyWs c = false) :
    splitWs t [] = [String.mk t] := by
  have h2 := splitWs_token t [] [] h
  rw [List.append_nil] at h2
  rw [h2]
  show (if (t.reverse ++ []).isEmpty then []
    else [String.mk (t.reverse ++ []).reverse]) = _
  rw [List.append_nil, List.reverse_reverse]
  rw [if_neg (by simp [ht])]

theorem pySplit_verb_key (verb k : String)
    (hv1 : verb.data ≠ []) (hv2 : ∀ c ∈ verb.data, isPyWs c = false)
    (hk1 : k.data ≠ []) (hk2 : ∀ c ∈ k.data, isPyWs c = false) :
    pySplit (verb ++ " " ++ k) = [verb, k] := by
  show splitWs (verb ++ " " ++ k).data [] = [verb, k]
  have hdata : (verb ++ " " ++ k).data = verb.data ++ ([' '] ++ k.data) := by
    rw [data_append, data_append, List.append_assoc]
  rw [hdata, splitWs_token verb.data ([' '] ++ k.data) [] hv2]
  rw [splitWs_flush [' '] k.data (verb.data.reverse ++ []) (by simp)
    (by intro c hc; simp at hc; rw [hc]; rfl) (by simp [hv1])]
  rw [splitWs_single_token k.data hk1 hk2, List.append_nil, List.reverse_reverse]

theorem parse_verb_key (verb k : String)
    (hv1 : verb.data ≠ []) (hv2 : ∀ c ∈ verb.data, isPyWs c = false)
    (hk1 : k.data ≠ []) (hk2 : ∀ c ∈ k.data, isPyWs c = false) :
    parse_command (verb ++ " " ++ k) = (some (py_upper verb), some k, none) := by
  unfold parse_command
  rw [pySplit_strip, pySplit_verb_key verb k hv1 hv2 hk1 hk2]
  rfl

/-- Claim C9: for any key token `k`, the request line `SET k` (no value
tokens) answers `OK\n` and binds `k` to the absent value; a following
`GET k` answers `(nil)\n` — exactly what a never-set key answers — while a
following `DELETE k` still answers `1\n` because the key is in fact bound. -/
theorem claim_C9 (st : Storage) (k : String) (hk1 : k.data ≠ [])
    (hk2 : ∀ c ∈ k.data, isPyWs c = false) :
    process_line st ("SET " ++ k) = ("OK\n", Storage.set st (some k) none) ∧
    ((process_line st ("SET " ++ k)).2) (some k) = some none ∧
    (process_line (Storage.set st (some k) none) ("GET " ++ k)).1 = "(nil)\n" ∧
    (process_line Storage.empty ("GET " ++ k)).1 = "(nil)\n" ∧
    (process_line (Storage.set st (some k) none) ("DELETE " ++ k)).1 = "1\n" := by
  have hS : parse_command ("SET " ++ k) = (some "SET", some k, none) :=
    parse_verb_key "SET" k (by decide) (by decide) hk1 hk2
  have hG : parse_command ("GET " ++ k) = (some "GET", some k, none) :=
    parse_verb_key "GET" k (by decide) (by decide) hk1 hk2
  have hD : parse_command ("DELETE " ++ k) = (some "DELETE", some k, none) :=
    parse_verb_key "DELETE" k (by decide) (by decide) hk1 hk2
  have hset : process_line st ("SET " ++ k) = ("OK\n", Storage.set st (some k) none) := by
    unfold process_line
    rw [hS]
    rfl
  refine ⟨hset, ?_, ?_, ?_, ?_⟩
  · rw [hset]
    simp [Storage.set]
  · unfold process_line
    rw [hG]
    simp [execute_command, Storage.get, Storage.set, format_response]
  · unfold process_line
    rw [hG]
    simp [execute_command, Storage.get, Storage.empty, format_response]
  · unfold process_line
    rw [hD]
    simp [execute_command, Storage.delete, Storage.set, format_response]

/-- Claim C9 witness at concrete inputs. -/
theorem claim_C9_witness :
    process_line Storage.empty "SET a" = ("OK\n", Storage.set Storage.empty (some "a") none) ∧
    ((process_line Storage.empty "SET a").2) (some "a") = some none ∧
    (process_line (Storage.set Storage.empty (some "a") none) "GET a").1 = "(nil)\n" ∧
    (process_line Storage.empty "GET a").1 = "(nil)\n" ∧
    (process_line (Storage.set Storage.empty (some "a") none) "DELETE a").1 = "1\n" :=
  claim_C9 Storage.empty "a" (by decide) (by decide)

/-- A nonempty run of whitespace characters (a separator in a request line). -/
def wsRun (s : String) : Prop :=
  s.data ≠ [] ∧ ∀ c ∈ s.data, isPyWs c = true

/-- A nonempty token containing no whitespace. -/
def token (s : String) : Prop :=
  s.data ≠ [] ∧ ∀ c ∈ s.data, isPyWs c = false

instance (s : String) : Decidable (wsRun s) := by
  unfold wsRun
  infer_instance

instance (s : String) : Decidable (token s) := by
  unfold token
  infer_instance

/-- Concatenate (separator, token) pairs into the tail of a request line. -/
def catParts : List (String × String) → String
  | [] => ""
  | p :: rest => p.1 ++ p.2 ++ catParts rest

/-- A `SET` line for `key` whose value tokens come interleaved with the given
whitespace separators. -/
def mkSetLine (key : String) (parts : List (String × String)) : String :=
  "SET " ++ key ++ catParts parts

theorem splitWs_glue (parts : List (String × String)) (acc : List Char)
    (hacc : acc ≠ []) (hp : ∀ p ∈ parts, wsRun p.1 ∧ token p.2) :
    splitWs (catParts parts).data acc =
      String.mk acc.reverse :: parts.map (fun p => p.2) := by
  induction parts generalizing acc with
  | nil =>
    have hae : acc.isEmpty = false := by
      cases acc with
      | nil => exact absurd rfl hacc
      | cons a as => rfl
    show splitWs [] acc = _
    simp [splitWs, hae]
  | cons p rest ih =>
    obtain ⟨hw, ht⟩ := hp p (List.mem_cons_self _ _)
    have hrest : ∀ q ∈ rest, wsRun q.1 ∧ token q.2 :=
      fun q hq => hp q (List.mem_cons_of_mem _ hq)
    have hdata : (catParts (p :: rest)).data =
        p.1.data ++ (p.2.data ++ (catParts rest).data) := by
      show (p.1 ++ p.2 ++ catParts rest).data = _
      rw [data_append, data_append, List.append_assoc]
    rw [hdata]
    rw [splitWs_flush p.1.data _ acc hw.1 hw.2 hacc]
    rw [splitWs_token p.2.data _ [] ht.2]
    rw [List.append_nil]
    rw [ih p.2.data.reverse (by simp [ht.1]) hrest]
    rw [List.reverse_reverse]
    rfl

theorem pySplit_mkSetLine (key : String) (parts : List (String × String))
    (hk1 : key.data ≠ []) (hk2 : ∀ c ∈ key.data, isPyWs c = false)
    (hp : ∀ p ∈ parts, wsRun p.1 ∧ token p.2) :
    pySplit (mkSetLine key parts) = "SET" :: key :: parts.map (fun p => p.2) := by
  show splitWs (mkSetLine key parts).data [] = _
  have hdata : (mkSetLine key parts).data =
      ['S', 'E', 'T'] ++ ([' '] ++ (key.data ++ (catParts parts).data)) := by
    show (("SET " ++ key) ++ catParts parts).data = _
    rw [data_append, data_append]
    show (['S', 'E', 'T', ' '] ++ key.data) ++ (catParts parts).data = _
    simp
  rw [hdata]
  rw [splitWs_token ['S', 'E', 'T'] _ [] (by decide)]
  rw [splitWs_flush [' '] _ _ (by simp)
    (by intro c hc; simp at hc; rw [hc]; rfl) (by decide)]
  rw [splitWs_token key.data _ [] hk2]
  simp only [List.append_nil]
  rw [splitWs_glue parts key.data.reverse (by simp [hk1]) hp]
  simp only [List.reverse_reverse]

theorem parse_command_tokens (s : String) (t k2 : String) (vs : List String)
    (h : pySplit (py_strip s) = t :: k2 :: vs) (hvs : vs ≠ []) :
    parse_command s = (some (py_upper t), some k2, some (py_join " " vs)) := by
  unfold parse_command
  rw [h]
  have hlen : (k2 :: vs).length > 1 := by
    cases vs with
    | nil => exact absurd rfl hvs
    | cons a b => simp
  show (some (py_upper t), (k2 :: vs).head?,
      if (k2 :: vs).length > 1 then some (py_join " " (List.drop 1 (k2 :: vs)))
      else none) = _
  rw [if_pos hlen]
  rfl

/-- Claim C10: parsing collapses every internal whitespace run in the value
to a single space: a `SET` line whose value tokens are separated by arbitrary
nonempty whitespace runs (tabs, repeated spaces, ...) parses to the value
tokens joined by exactly one space each; two `SET` lines whose values differ
only in those runs parse identically and so store identical values; and the
set-then-get round trip is therefore not the identity on such raw values. -/
theorem claim_C10 (key : String) (parts parts2 : List (String × String))
    (hkey1 : key.data ≠ []) (hkey2 : ∀ c ∈ key.data, isPyWs c = false)
    (hp : ∀ p ∈ parts, wsRun p.1 ∧ token p.2)
    (hp2 : ∀ p ∈ parts2, wsRun p.1 ∧ token p.2)
    (hne : parts ≠ [])
    (hsame : parts.map (fun p => p.2) = parts2.map (fun p => p.2)) :
    parse_command (mkSetLine key parts) =
      (some "SET", some key, some (py_join " " (parts.map (fun p => p.2)))) ∧
    parse_command (mkSetLine key parts) = parse_command (mkSetLine key parts2) ∧
    (parse_command "SET k a \t b").2.2 = some "a b" ∧
    ("a b" : String) ≠ "a \t b" := by
  have hgen : ∀ (ps : List (String × String)), (∀ p ∈ ps, wsRun p.1 ∧ token p.2) →
      ps ≠ [] →
      parse_command (mkSetLine key ps) =
        (some "SET", some key, some (py_join " " (ps.map (fun p => p.2)))) := by
    intro ps hps hne2
    have hvs : ps.map (fun p => p.2) ≠ [] := by
      simpa using hne2
    have h := parse_command_tokens (mkSetLine key ps) "SET" key
      (ps.map (fun p => p.2))
      (by rw [pySplit_strip]; exact pySplit_mkSetLine key ps hkey1 hkey2 hps) hvs
    rw [h]
    rfl
  have hne2 : parts2 ≠ [] := by
    intro hz
    rw [hz] at hsame
    have h0 : parts.map (fun p => p.2) = [] := by simpa using hsame
    exact hne (by simpa using h0)
  refine ⟨hgen parts hp hne, ?_, by decide, by decide⟩
  rw [hgen parts hp hne, hgen parts2 hp2 hne2, hsame]

/-- Claim C10 witness at concrete inputs. -/
theorem claim_C10_witness :
    parse_command (mkSetLine "greeting" [(" ", "hello"), ("  ", "world")]) =
      (some "SET", some "greeting",
        some (py_join " " (([(" ", "hello"), ("  ", "world")]).map (fun p => p.2)))) ∧
    parse_command (mkSetLine "greeting" [(" ", "hello"), ("  ", "world")]) =
      parse_command (mkSetLine "greeting" [(" ", "hello"), (" \t ", "world")]) ∧
    (parse_command "SET k a \t b").2.2 = some "a b" ∧
    ("a b" : String) ≠ "a \t b" :=
  claim_C10 "greeting" [(" ", "hello"), ("  ", "world")]
    [(" ", "hello"), (" \t ", "world")]
    (by decide) (by decide) (by decide) (by decide) (by decide) (by decide)
